import Mathlib

/-!
Verification development for the native event-loop driver of `eframe`
(`crates/eframe/src/native/run.rs`).

The Rust source is shallowly embedded: hash maps become association lists over
`Nat` keys, `std::time::Instant` becomes a `Nat` tick count, platform `cfg!`
conditions become `Bool` parameters, and panicking paths (`unwrap`/`expect`)
become `Option` results where `none` marks a panic.  External collaborators
(the egui context, winit windows, GL/wgpu painters) are modelled at their
boundary: their outputs are parameters, their state is reduced to what the
driver observes (window ids, surface sizes).
-/

/-! ### Identifiers and time -/

/-- `egui::ViewportId`, an opaque identifier; `0` plays `ViewportId::MAIN`. -/
abbrev ViewportId := Nat

/-- `ViewportId::MAIN`. -/
def mainViewport : ViewportId := 0

/-- `winit::window::WindowId`, opaque. -/
abbrev WindowId := Nat

/-- `std::time::Instant`, as a monotone tick count. -/
abbrev Instant := Nat

/-- `std::time::Duration`, as a tick count. -/
abbrev Duration := Nat

/-- Bound past which `Instant::checked_add` overflows. -/
def instantMax : Nat := 2 ^ 64

/-- `Instant::checked_add`: `none` models the overflow case. -/
def instantCheckedAdd (now : Instant) (d : Duration) : Option Instant :=
  if now + d < instantMax then some (now + d) else none

/-! ### Association-list maps (the driver's `HashMap`s) -/

/-- `HashMap::get` on an association list with `Nat` keys. -/
def lookupA {β : Type} : List (Nat × β) → Nat → Option β
  | [], _ => none
  | (k, v) :: rest, a => if k = a then some v else lookupA rest a

/-- `HashMap::remove`. -/
def removeA {β : Type} (m : List (Nat × β)) (a : Nat) : List (Nat × β) :=
  m.filter (fun kv => kv.1 != a)

/-- `HashMap::insert` (replacing any previous binding of the key). -/
def insertA {β : Type} (m : List (Nat × β)) (a : Nat) (b : β) : List (Nat × β) :=
  (a, b) :: removeA m a

/-! ### `EventResult` and the event pump (`run_and_return` / `run_and_exit`)

Both run modes fold every OS event into a batch of `EventResult`s and then
process the batch with textually identical `RepaintNow` / `RepaintNext` /
`RepaintAt` arms (run.rs lines 248-284 and 388-420), followed by an idle pass
over `windows_next_repaint_times` (lines 286-309 and 422-454).  The modes
differ in the `Wait` arm (set-wait vs. no-op), in the `Exit` arm (return to
caller vs. `std::process::exit`) and in how a due entry with a dead window is
treated during the idle pass.  The `cfg!(target_os = "windows")` test in the
`RepaintNow` arm is the `isWindows : Bool` parameter.  iOS-only code paths
(`cfg(target_os = "ios")`) are outside this model. -/

/-- `EventResult` (run.rs lines 70-90). -/
inductive EventResult
  | wait
  | repaintNow (w : WindowId)
  | repaintNext (w : WindowId)
  | repaintAt (w : WindowId) (t : Instant)
  | exit
deriving DecidableEq

/-- The two entry modes of the driver. -/
inductive RunMode
  | runAndReturn
  | runAndExit
deriving DecidableEq

/-- `winit::event_loop::ControlFlow` as the driver sets it. -/
inductive ControlFlow
  | waitCF
  | poll
  | waitUntil (t : Instant)
  | exitCF
deriving DecidableEq

/-- Observable state of one pump iteration: the repaint schedule
(`windows_next_repaint_times`), plus logs of the externally visible calls the
driver makes (synchronous `run_ui_and_paint` invocations, `request_redraw`
calls, `save_and_destroy` invocations). -/
structure LoopState where
  sched : List (WindowId × Instant)
  paints : List WindowId
  redraws : List WindowId
  saves : Nat
  controlFlow : ControlFlow
  exited : Bool
deriving DecidableEq

/-- Processing of one non-`Exit` `EventResult` (run.rs lines 248-276 /
388-411).  `now` is the value of `Instant::now()` during the handler. -/
def processOne (mode : RunMode) (isWindows : Bool) (now : Instant) (s : LoopState) :
    EventResult → LoopState
  | .wait =>
    match mode with
    | .runAndReturn => { s with controlFlow := .waitCF }
    | .runAndExit => s
  | .repaintNow w =>
    if isWindows then
      { s with sched := removeA s.sched w, paints := s.paints ++ [w] }
    else
      { s with sched := insertA s.sched w now }
  | .repaintNext w => { s with sched := insertA s.sched w now }
  | .repaintAt w t =>
    let t' := match lookupA s.sched w with
      | none => t
      | some last => min last t
    { s with sched := insertA s.sched w t' }
  | .exit => s

/-- Effect of reaching `EventResult::Exit`: `save_and_destroy` runs, then
`run_and_return` sets `ControlFlow::Exit` and returns while `run_and_exit`
calls `std::process::exit(0)` (run.rs lines 277-282 / 413-418). -/
def exitFinish (mode : RunMode) (s : LoopState) : LoopState :=
  match mode with
  | .runAndReturn => { s with saves := s.saves + 1, exited := true, controlFlow := .exitCF }
  | .runAndExit => { s with saves := s.saves + 1, exited := true }

/-- The `for event in events` loop over one batch: outcomes are processed in
order and `Exit` short-circuits (run.rs lines 248-284 / 388-420). -/
def processBatch (mode : RunMode) (isWindows : Bool) (now : Instant) :
    List EventResult → LoopState → LoopState
  | [], s => s
  | .exit :: _, s => exitFinish mode s
  | e :: rest, s => processBatch mode isWindows now rest (processOne mode isWindows now s e)

/-- One step of the idle pass over a scheduled entry (run.rs lines 287-301 /
423-435).  A due entry whose window is alive gets `request_redraw` and is
removed; in `run_and_return` a due entry with a dead window is removed with
set-wait, while `run_and_exit` leaves it and polls. -/
def idleStep (mode : RunMode) (now : Instant) (live : WindowId → Bool) (s : LoopState)
    (entry : WindowId × Instant) : LoopState :=
  if entry.2 ≤ now then
    match mode with
    | .runAndReturn =>
      if live entry.1 then
        { s with redraws := s.redraws ++ [entry.1], sched := removeA s.sched entry.1,
                 controlFlow := .poll }
      else
        { s with sched := removeA s.sched entry.1, controlFlow := .waitCF }
    | .runAndExit =>
      if live entry.1 then
        { s with redraws := s.redraws ++ [entry.1], sched := removeA s.sched entry.1,
                 controlFlow := .poll }
      else
        { s with controlFlow := .poll }
  else s

/-- `next_repaint_time`: the min-fold over not-yet-due entries
(run.rs lines 286-301 / 422-435). -/
def nextRepaintTime (now : Instant) (entries : List (WindowId × Instant)) : Option Instant :=
  entries.foldl
    (fun acc e =>
      if e.2 ≤ now then acc
      else some (match acc with
                 | none => e.2
                 | some last => min last e.2))
    none

/-- The idle pass: iterate over a clone of the schedule, firing due entries,
then set `WaitUntil` for the earliest remaining instant (run.rs lines 286-309
/ 422-454). -/
def idlePass (mode : RunMode) (now : Instant) (live : WindowId → Bool) (s : LoopState) :
    LoopState :=
  let s' := s.sched.foldl (idleStep mode now live) s
  match nextRepaintTime now s.sched with
  | some t => { s' with controlFlow := .waitUntil t }
  | none => s'

/-- One full pump iteration after a batch has been produced: process the
batch, and unless `Exit` short-circuited, run the idle pass. -/
def loopStep (mode : RunMode) (isWindows : Bool) (now : Instant) (live : WindowId → Bool)
    (batch : List EventResult) (s : LoopState) : LoopState :=
  let s' := processBatch mode isWindows now batch s
  if s'.exited then s' else idlePass mode now live s'

/-- `UserEvent::RequestRepaint` handling, identical in both run modes
(run.rs lines 205-221 and 360-374): honoured only when `frame_nr` still
matches `winit_app.frame_nr()` and the viewport has a live window. -/
def handleRequestRepaint (appFrameNr : Nat) (getWindowWinitId : ViewportId → Option WindowId)
    (id : ViewportId) (when : Instant) (frame_nr : Nat) : List EventResult :=
  if appFrameNr = frame_nr then
    match getWindowWinitId id with
    | some window_id => [.repaintAt window_id when]
    | none => [.wait]
  else [.wait]

/-- A loop state with one pending schedule entry for window 5. -/
def c1State : LoopState :=
  { sched := [(5, 10)], paints := [], redraws := [], saves := 0,
    controlFlow := .waitCF, exited := false }

/-! ### Backend data model

`egui::ViewportBuilder` is reduced to the fields the driver inspects (the
icon, used for parent-icon inheritance) plus an opaque payload standing for
all remaining attributes.  `changes_between_builders` lives in `egui_winit`
(outside this crate); reconciliation is parameterised over it as an opaque
function returning the recreate flag and the updated last-seen builder (the
command list it also returns is applied to the live OS window and never
touches the registry). -/

/-- `egui::ViewportBuilder`, reduced to the driver-visible fields. -/
structure Builder where
  icon : Option Nat
  data : Nat
deriving DecidableEq

/-- `egui::ViewportIdPair`. -/
structure ViewportIdPair where
  this : ViewportId
  parent : ViewportId
deriving DecidableEq

/-- `egui::ViewportOutput`: one declared viewport in a frame's output. -/
structure ViewportOutput where
  builder : Builder
  pair : ViewportIdPair
  render : Option Unit
deriving DecidableEq

/-- The driver-visible part of `egui::FullOutput`: the per-viewport
`repaint_after` map and the declared viewport list.  `platform_output`,
`textures_delta`, `shapes` and `viewport_commands` go to external
collaborators. -/
structure FullOutput where
  repaint_after : List (ViewportId × Duration)
  viewports : List ViewportOutput
deriving DecidableEq

/-- `egui_winit::EventResponse`. -/
structure EventResponse where
  consumed : Bool
  repaint : Bool
deriving DecidableEq

/-- The window events the driver inspects specially; everything else is
`other` (forwarded to the per-viewport input adapter unchanged). -/
inductive WindowEvent
  | focused (gained : Bool)
  | resized (width height : Nat)
  | scaleFactorChanged (width height : Nat)
  | closeRequested
  | other
deriving DecidableEq

/-! ### Glow backend (`glow_integration`) -/

/-- `glow_integration::Window`: a GL surface is modelled by its physical
size, the winit window by its id, the egui-winit input adapter by its
presence, the sync-render callback by its presence. -/
structure GlowWindow where
  gl_surface : Option (Nat × Nat)
  window : Option WindowId
  pair : ViewportIdPair
  render : Option Unit
  egui_winit : Bool
deriving DecidableEq

/-- `glow_integration::GlutinWindowContext`: the viewport registry, the
window-id reverse index, the last-seen builders, and the presence of the
(single, shared) current GL context. -/
structure GlutinWindowContext where
  current_gl_context : Bool
  viewports : List (ViewportId × GlowWindow)
  viewports_maps : List (WindowId × ViewportId)
  builders : List (ViewportId × Builder)
deriving DecidableEq

/-- `GlowWinitApp`-level state the claims observe: `running` (None before the
first `Resumed`) and the process-wide focused viewport. -/
structure GlowApp where
  running : Option GlutinWindowContext
  is_focused : Option ViewportId
deriving DecidableEq

/-- `GlutinWindowContext::resize` (run.rs lines 827-856): clamps the size to
at least 1, no-ops when the viewport or its surface is absent, and panics
(`none`) when a surface exists but no GL context is current. -/
def GlutinWindowContext.resize (ctx : GlutinWindowContext) (viewport_id : ViewportId)
    (width height : Nat) : Option GlutinWindowContext :=
  let w := max width 1
  let h := max height 1
  match lookupA ctx.viewports viewport_id with
  | none => some ctx
  | some win =>
    match win.gl_surface with
    | none => some ctx
    | some _ =>
      if ctx.current_gl_context then
        let win' := { win with gl_surface := some (w, h) }
        some { ctx with viewports := insertA ctx.viewports viewport_id win' }
      else none

/-- The `CloseRequested` guard of `GlowWinitApp::on_event` (run.rs lines
1696-1723): count the viewport records whose live window has this id and
whose own viewport id is MAIN. -/
def glowMainCloseCount (ctx : GlutinWindowContext) (window_id : WindowId) : Nat :=
  (ctx.viewports.filterMap (fun kv =>
      match kv.2.window with
      | some wid =>
        if wid = window_id ∧ kv.2.pair.this = mainViewport then some () else none
      | none => none)).length

/-- The `event_response` block of `GlowWinitApp::on_event` (run.rs lines
1731-1754): when the window id resolves to a viewport record the integration
is consulted (its answer is the parameter `resp`), and
`viewport.egui_winit.as_mut().unwrap()` panics (`none`) when the record has
no input adapter; otherwise the response defaults to not-consumed /
no-repaint. -/
def glowEventResponse (ctx : GlutinWindowContext) (resp : EventResponse)
    (window_id : WindowId) : Option EventResponse :=
  match lookupA ctx.viewports_maps window_id with
  | some vid =>
    match lookupA ctx.viewports vid with
    | some win => if win.egui_winit then some resp else none
    | none => some { consumed := false, repaint := false }
  | none => some { consumed := false, repaint := false }

/-- The tail of the `WindowEvent` arm of `GlowWinitApp::on_event` (run.rs
lines 1756-1766): `should_close` (as observed after the integration ran)
yields `Exit`, a repaint-requesting response yields `RepaintNow` during a
resize-like event (`repaint_asap`) and `RepaintNext` otherwise. -/
def finishGlowEvent (app' : GlowApp) (ctx : GlutinWindowContext) (should_close : Bool)
    (resp : EventResponse) (window_id : WindowId) (repaint_asap : Bool) :
    Option (GlowApp × EventResult) :=
  match glowEventResponse ctx resp window_id with
  | none => none
  | some er =>
    some (app',
      if should_close then .exit
      else if er.repaint then
        (if repaint_asap then .repaintNow window_id else .repaintNext window_id)
      else .wait)

/-- The `WindowEvent` arm of `GlowWinitApp::on_event` (run.rs lines
1643-1770).  `should_close₀` is `integration.should_close()` when the
`CloseRequested` guard runs, `should_close₁` the value observed after the
integration handled the event; `resp` is the integration's answer.  With no
running state every window event is `Wait` and nothing is touched. -/
def glowOnWindowEvent (app : GlowApp) (should_close₀ should_close₁ : Bool)
    (resp : EventResponse) (window_id : WindowId) (event : WindowEvent) :
    Option (GlowApp × EventResult) :=
  match app.running with
  | none => some (app, .wait)
  | some ctx =>
    match event with
    | .focused gained =>
      let fo := if gained then lookupA ctx.viewports_maps window_id else none
      finishGlowEvent { app with is_focused := fo } ctx should_close₁ resp window_id false
    | .resized width height =>
      let ctxQ :=
        if 0 < width ∧ 0 < height then
          match lookupA ctx.viewports_maps window_id with
          | some vid => ctx.resize vid width height
          | none => some ctx
        else some ctx
      match ctxQ with
      | none => none
      | some c =>
        finishGlowEvent { app with running := some c } c should_close₁ resp window_id true
    | .scaleFactorChanged width height =>
      let ctxQ :=
        match lookupA ctx.viewports_maps window_id with
        | some vid => ctx.resize vid width height
        | none => some ctx
      match ctxQ with
      | none => none
      | some c =>
        finishGlowEvent { app with running := some c } c should_close₁ resp window_id true
    | .closeRequested =>
      if glowMainCloseCount ctx window_id = 1 ∧ should_close₀ then
        some (app, .exit)
      else
        finishGlowEvent app ctx should_close₁ resp window_id false
    | .other =>
      finishGlowEvent app ctx should_close₁ resp window_id false

/-- Observable shutdown actions of `save_and_destroy`. -/
inductive Effect
  | save (window : Option WindowId)
  | appOnExit
  | painterDestroy
deriving DecidableEq

/-- `GlowWinitApp::save_and_destroy` (run.rs lines 1323-1341): takes the
running state (leaving `None`), saves via the integration (panicking —
`none` — if the MAIN record is missing, as `GlutinWindowContext::window`
expects it), notifies the app, destroys the painter. -/
def glowSaveAndDestroy (running : Option GlutinWindowContext) :
    Option (Option GlutinWindowContext × List Effect) :=
  match running with
  | none => some (none, [])
  | some ctx =>
    match lookupA ctx.viewports mainViewport with
    | none => none
    | some mrec => some (none, [.save mrec.window, .appOnExit, .painterDestroy])

/-! ### Glow reconciliation (`GlowWinitApp::process_viewport_builders`,
run.rs lines 1185-1262) -/

/-- One step of the `retain_mut` pass: record the (possibly updated) builder
via the entry API, diff against the last-seen one, and when the viewport has
a live record mutate it (on recreate: drop window and surface, store the new
render callback, and — as the source does — set the record's parent to the
viewport's own id) and mark it active; otherwise keep the output pending for
creation. -/
def pvbStep (changes : Builder → Builder → Bool × Builder)
    (acc : GlutinWindowContext × List ViewportId × List ViewportOutput)
    (out : ViewportOutput) : GlutinWindowContext × List ViewportId × List ViewportOutput :=
  let ctx := acc.1
  let id := out.pair.this
  let last := (lookupA ctx.builders id).getD out.builder
  let diffed := changes out.builder last
  let ctx1 := { ctx with builders := insertA ctx.builders id diffed.2 }
  match lookupA ctx1.viewports id with
  | some w =>
    let w' := if diffed.1 then
        { w with window := none, gl_surface := none, render := out.render,
                 pair := { w.pair with parent := id } }
      else w
    ({ ctx1 with viewports := insertA ctx1.viewports id w' }, acc.2.1 ++ [id], acc.2.2)
  | none => (ctx1, acc.2.1, acc.2.2 ++ [out])

/-- One step of the creation pass over pending outputs: inherit the parent's
icon when none was specified, insert a fresh (window-less, surface-less)
record and its builder, and mark it active. -/
def pvbCreate (acc : GlutinWindowContext × List ViewportId) (out : ViewportOutput) :
    GlutinWindowContext × List ViewportId :=
  let ctx := acc.1
  let default_icon := (lookupA ctx.builders out.pair.parent).bind (fun b => b.icon)
  let builder := if out.builder.icon = none then { out.builder with icon := default_icon }
    else out.builder
  let fresh : GlowWindow :=
    { gl_surface := none, window := none, egui_winit := false,
      render := out.render, pair := out.pair }
  ({ ctx with
      viewports := insertA ctx.viewports out.pair.this fresh,
      builders := insertA ctx.builders out.pair.this builder },
   acc.2 ++ [out.pair.this])

/-- The retain pass of `process_viewport_builders`: fold over the declared
viewports, starting from the active list `[MAIN]` and no pending outputs. -/
def pvbPass1 (changes : Builder → Builder → Bool × Builder) (ctx : GlutinWindowContext)
    (outs : List ViewportOutput) : GlutinWindowContext × List ViewportId × List ViewportOutput :=
  outs.foldl (pvbStep changes) (ctx, [mainViewport], [])

/-- The creation pass of `process_viewport_builders`, folded over the
outputs the retain pass left pending. -/
def pvbPass2 (changes : Builder → Builder → Bool × Builder) (ctx : GlutinWindowContext)
    (outs : List ViewportOutput) : GlutinWindowContext × List ViewportId :=
  (pvbPass1 changes ctx outs).2.2.foldl pvbCreate
    ((pvbPass1 changes ctx outs).1, (pvbPass1 changes ctx outs).2.1)

/-- `GlowWinitApp::process_viewport_builders`: the retain pass, the creation
pass, then pruning of `viewports`, `builders` and `viewports_maps` by the
active id list (which always starts with MAIN). -/
def process_viewport_builders (changes : Builder → Builder → Bool × Builder)
    (ctx : GlutinWindowContext) (viewports : List ViewportOutput) : GlutinWindowContext :=
  let pass2 := pvbPass2 changes ctx viewports
  let active := pass2.2
  { pass2.1 with
    viewports := pass2.1.viewports.filter (fun kv => active.contains kv.1),
    builders := pass2.1.builders.filter (fun kv => active.contains kv.1),
    viewports_maps := pass2.1.viewports_maps.filter (fun kv => active.contains kv.2) }

/-! ### Glow paint path (`GlowWinitApp::run_ui_and_paint`, run.rs lines
1343-1582) -/

/-- The `window_map` snapshot taken before the update (run.rs lines
1378-1383): every viewport with a live window, keyed by viewport id. -/
def buildWindowMap (viewports : List (ViewportId × GlowWindow)) :
    List (ViewportId × WindowId) :=
  viewports.filterMap (fun kv => kv.2.window.map (fun w => (kv.1, w)))

/-- The `control_flow` computation (run.rs lines 1526-1551): `Exit` when the
integration wants to close, otherwise each `repaint_after` entry maps to
`RepaintNext` (zero delay) or `RepaintAt` (`Instant::now() + delay`, dropped
on overflow), filtered through the pre-update window map. -/
def glowControlFlow (shouldClose : Bool) (now : Instant)
    (window_map : List (ViewportId × WindowId))
    (repaint_after : List (ViewportId × Duration)) : List EventResult :=
  if shouldClose then [.exit]
  else repaint_after.filterMap (fun entry =>
    if entry.2 = 0 then (lookupA window_map entry.1).map (fun w => .repaintNext w)
    else match instantCheckedAdd now entry.2 with
      | some t => (lookupA window_map entry.1).map (fun w => .repaintAt w t)
      | none => none)

/-- Result of one `run_ui_and_paint` call: the returned `EventResult` batch,
the registry afterwards, and whether the update/paint path actually ran for
the addressed viewport. -/
structure GlowPaintResult where
  results : List EventResult
  ctx : Option GlutinWindowContext
  didPaint : Bool
deriving DecidableEq

/-- `GlowWinitApp::run_ui_and_paint`.  `out` is the `FullOutput` the egui
update produces, `shouldClose` the integration's close flag after the
update.  Without running state or for an unknown window id the result is
`[Wait]`; a non-MAIN viewport whose record has no render callback (a sync
viewport, renderable only inline by its parent) is never painted: the call
returns `RepaintNow(parent window)` when the parent's window exists and
nothing otherwise (run.rs lines 1364-1376).  The paint path unwraps the
record's window, input adapter, surface and the current GL context
(panicking — `none` — when absent), computes the control flow from
`repaint_after`, and reconciles the declared viewports. -/
def glowRunUiAndPaint (running : Option GlutinWindowContext) (shouldClose : Bool)
    (out : FullOutput) (changes : Builder → Builder → Bool × Builder)
    (now : Instant) (window_id : WindowId) : Option GlowPaintResult :=
  match running with
  | none => some { results := [.wait], ctx := none, didPaint := false }
  | some ctx =>
    match lookupA ctx.viewports_maps window_id with
    | none => some { results := [.wait], ctx := some ctx, didPaint := false }
    | some viewport_id =>
      match lookupA ctx.viewports viewport_id with
      | none => none
      | some win =>
        if win.render = none ∧ viewport_id ≠ mainViewport then
          match lookupA ctx.viewports win.pair.parent with
          | some parent =>
            match parent.window with
            | some w =>
              some { results := [.repaintNow w], ctx := some ctx, didPaint := false }
            | none => some { results := [], ctx := some ctx, didPaint := false }
          | none => some { results := [], ctx := some ctx, didPaint := false }
        else
          match win.window, win.egui_winit, win.gl_surface, ctx.current_gl_context with
          | some _, true, some _, true =>
            let window_map := buildWindowMap ctx.viewports
            let results := glowControlFlow shouldClose now window_map out.repaint_after
            let ctx' := process_viewport_builders changes ctx out.viewports
            some { results := results, ctx := some ctx', didPaint := true }
          | _, _, _, _ => none

/-! ### Wgpu backend (`wgpu_integration`) -/

/-- `wgpu_integration::Window`. -/
structure WgpuWindow where
  window : Option WindowId
  state : Bool
  render : Option Unit
  parent_id : ViewportId
deriving DecidableEq

/-- The wgpu running state: the viewport registry, last-seen builders, the
window-id reverse index, and the painter's per-viewport surfaces (modelled
by their size). -/
structure WgpuRunning where
  surfaces : List (ViewportId × (Nat × Nat))
  viewports : List (ViewportId × WgpuWindow)
  builders : List (ViewportId × Builder)
  windows_id : List (WindowId × ViewportId)
deriving DecidableEq

/-- `WgpuWinitApp`-level state the claims observe. -/
structure WgpuApp where
  running : Option WgpuRunning
  is_focused : Option ViewportId
deriving DecidableEq

/-- Modelled from the spec: `egui_wgpu::winit::Painter::on_window_resized`
(code of this repository, but not under `src/`) reconfigures the viewport's
GPU surface to the new physical size before the next paint uses it. -/
def painterOnWindowResized (r : WgpuRunning) (vid : ViewportId) (width height : Nat) :
    WgpuRunning :=
  { r with surfaces := insertA r.surfaces vid (width, height) }

/-- Modelled from the spec: `egui_wgpu::winit::Painter::clean_surfaces`
(code of this repository, but not under `src/`) releases the GPU surface of
every viewport absent from the active list. -/
def cleanSurfaces (surfaces : List (ViewportId × (Nat × Nat)))
    (active : List ViewportId) : List (ViewportId × (Nat × Nat)) :=
  surfaces.filter (fun kv => active.contains kv.1)

/-- One step of the wgpu `retain_mut` pass (run.rs lines 2366-2381): a
declared viewport with an existing record has its render callback and parent
stored and is marked active; otherwise it stays pending. -/
def wgpuRetainStep (acc : WgpuRunning × List ViewportId × List ViewportOutput)
    (out : ViewportOutput) : WgpuRunning × List ViewportId × List ViewportOutput :=
  let r := acc.1
  match lookupA r.viewports out.pair.this with
  | some w =>
    let w' := { w with render := out.render, parent_id := out.pair.parent }
    ({ r with viewports := insertA r.viewports out.pair.this w' },
     acc.2.1 ++ [out.pair.this], acc.2.2)
  | none => (r, acc.2.1, acc.2.2 ++ [out])

/-- One step of the wgpu creation pass (run.rs lines 2383-2411): inherit the
parent's icon when none was given, insert the fresh record and its builder,
mark active. -/
def wgpuCreateStep (acc : WgpuRunning × List ViewportId) (out : ViewportOutput) :
    WgpuRunning × List ViewportId :=
  let r := acc.1
  let builder := if out.builder.icon = none then
      { out.builder with
        icon := (lookupA r.builders out.pair.parent).bind (fun b => b.icon) }
    else out.builder
  let fresh : WgpuWindow :=
    { window := none, state := false, render := out.render,
      parent_id := out.pair.parent }
  ({ r with
      viewports := insertA r.viewports out.pair.this fresh,
      builders := insertA r.builders out.pair.this builder },
   acc.2 ++ [out.pair.this])

/-- The wgpu retain pass of the reconciliation section of
`run_ui_and_paint` (run.rs lines 2366-2381). -/
def wgpuPass1 (r : WgpuRunning) (outs : List ViewportOutput) :
    WgpuRunning × List ViewportId × List ViewportOutput :=
  outs.foldl wgpuRetainStep (r, [mainViewport], [])

/-- The wgpu creation pass, folded over the pending outputs. -/
def wgpuPass2 (r : WgpuRunning) (outs : List ViewportOutput) :
    WgpuRunning × List ViewportId :=
  (wgpuPass1 r outs).2.2.foldl wgpuCreateStep ((wgpuPass1 r outs).1, (wgpuPass1 r outs).2.1)

/-- The wgpu reconciliation section of `run_ui_and_paint` (run.rs lines
2364-2430): retain pass, creation pass, then `viewports` and `windows_id`
are pruned by the active list and the painter's surfaces are cleaned.  The
`builders` table is NOT pruned in this backend. -/
def wgpuReconcile (r : WgpuRunning) (outs : List ViewportOutput) :
    WgpuRunning × List ViewportId :=
  let pass2 := wgpuPass2 r outs
  let active := pass2.2
  ({ pass2.1 with
      viewports := pass2.1.viewports.filter (fun kv => active.contains kv.1),
      windows_id := pass2.1.windows_id.filter (fun kv => active.contains kv.2),
      surfaces := cleanSurfaces pass2.1.surfaces active },
   active)

/-- One `repaint_after` entry of the wgpu control-flow loop (run.rs lines
2433-2466): `Exit` when the integration wants to close, `RepaintNext` /
`RepaintAt` through the post-reconciliation registry, `Wait` when the
viewport has no live window or the instant overflows. -/
def wgpuRepaintOutcome (shouldClose : Bool) (r' : WgpuRunning) (now : Instant)
    (entry : ViewportId × Duration) : EventResult :=
  if shouldClose then .exit
  else if entry.2 = 0 then
    match lookupA r'.viewports entry.1 with
    | some w2 =>
      match w2.window with
      | some w => .repaintNext w
      | none => .wait
    | none => .wait
  else
    match instantCheckedAdd now entry.2 with
    | some t =>
      match lookupA r'.viewports entry.1 with
      | some w2 =>
        match w2.window with
        | some w => .repaintAt w t
        | none => .wait
      | none => .wait
    | none => .wait

/-- Result of one wgpu `run_ui_and_paint` call. -/
structure WgpuPaintResult where
  results : List EventResult
  running : Option WgpuRunning
  didPaint : Bool
deriving DecidableEq

/-- `WgpuWinitApp::run_ui_and_paint` (run.rs lines 2279-2484).  Without
running state the result is `[Wait]`; when the window id does not resolve to
a record with a live window the call returns no outcome; a non-MAIN viewport
whose record has no render callback defers to its parent exactly as the glow
backend does (run.rs lines 2303-2312).  The paint path unwraps the egui
input adapter (`none` on absence), reconciles the declared viewports, builds
the control flow (`Wait` first, then one outcome per `repaint_after` entry)
and finally re-resolves the painted window, returning no outcome when
reconciliation removed it. -/
def wgpuRunUiAndPaint (running : Option WgpuRunning) (shouldClose : Bool)
    (out : FullOutput) (now : Instant) (window_id : WindowId) : Option WgpuPaintResult :=
  match running with
  | none => some { results := [.wait], running := none, didPaint := false }
  | some r =>
    match lookupA r.windows_id window_id with
    | none => some { results := [], running := some r, didPaint := false }
    | some viewport_id =>
      match lookupA r.viewports viewport_id with
      | none => some { results := [], running := some r, didPaint := false }
      | some win =>
        match win.window with
        | none => some { results := [], running := some r, didPaint := false }
        | some _ =>
          if viewport_id ≠ mainViewport ∧ win.render = none then
            match lookupA r.viewports win.parent_id with
            | some parent =>
              match parent.window with
              | some w =>
                some { results := [.repaintNow w], running := some r, didPaint := false }
              | none => some { results := [], running := some r, didPaint := false }
            | none => some { results := [], running := some r, didPaint := false }
          else
            if win.state then
              let rec1 := wgpuReconcile r out.viewports
              let results := .wait ::
                out.repaint_after.map (wgpuRepaintOutcome shouldClose rec1.1 now)
              match (lookupA rec1.1.windows_id window_id).bind (fun id =>
                  (lookupA rec1.1.viewports id).bind (fun w2 => w2.window)) with
              | some _ =>
                some { results := results, running := some rec1.1, didPaint := true }
              | none =>
                some { results := [], running := some rec1.1, didPaint := true }
            else none

/-- `WgpuWinitApp::save_and_destroy` (run.rs lines 2258-2277): takes the
running state, saves when a MAIN record exists, notifies the app, destroys
the painter. -/
def wgpuSaveAndDestroy (running : Option WgpuRunning) : Option WgpuRunning × List Effect :=
  match running with
  | none => (none, [])
  | some r =>
    (none,
      (match lookupA r.viewports mainViewport with
       | some mrec => [Effect.save mrec.window]
       | none => []) ++ [.appOnExit, .painterDestroy])

/-- `WgpuWinitApp::init_window` (run.rs lines 1963-1983) as called from
`build_windows`: `create` is the OS window factory (id and inner size); on
success the reverse index, painter surface, window handle and input adapter
are installed, on failure nothing changes. -/
def wgpuInitWindow (create : ViewportId → Option (WindowId × Nat × Nat))
    (r : WgpuRunning) (id : ViewportId) (wrec : WgpuWindow) : WgpuRunning :=
  match create id with
  | some nw =>
    let wrec' := { wrec with window := some nw.1, state := true }
    { r with
      windows_id := insertA r.windows_id nw.1 id,
      surfaces := insertA r.surfaces id (nw.2.1, nw.2.2),
      viewports := insertA r.viewports id wrec' }
  | none => r

/-- The iteration of `WgpuWinitApp::build_windows` (run.rs lines 1941-1961):
for each record, `viewport_builders.get(id).unwrap()` (panic — `none` — when
the builder is missing), then records that already have a window are
skipped and window-less ones are initialised. -/
def wgpuBuildWindowsGo (create : ViewportId → Option (WindowId × Nat × Nat)) :
    List (ViewportId × WgpuWindow) → WgpuRunning → Option WgpuRunning
  | [], r => some r
  | (id, wrec) :: rest, r =>
    match lookupA r.builders id with
    | none => none
    | some _ =>
      if wrec.window.isSome then wgpuBuildWindowsGo create rest r
      else wgpuBuildWindowsGo create rest (wgpuInitWindow create r id wrec)

/-- `WgpuWinitApp::build_windows`: a no-op without running state. -/
def wgpuBuildWindows (create : ViewportId → Option (WindowId × Nat × Nat))
    (r : WgpuRunning) : Option WgpuRunning :=
  wgpuBuildWindowsGo create r.viewports r

/-- The `event_response` block of `WgpuWinitApp::on_event` (run.rs lines
2607-2623): the integration is consulted only when the window id resolves to
a record with an input adapter; no panic on absence. -/
def wgpuEventResponse (r : WgpuRunning) (resp : EventResponse) (window_id : WindowId) :
    Option EventResponse :=
  match lookupA r.windows_id window_id with
  | some vid =>
    match lookupA r.viewports vid with
    | some win => if win.state then some resp else none
    | none => none
  | none => none

/-- The tail of the wgpu `WindowEvent` arm (run.rs lines 2625-2639). -/
def wgpuFinishEvent (app' : WgpuApp) (r : WgpuRunning) (should_close : Bool)
    (resp : EventResponse) (window_id : WindowId) (repaint_asap : Bool) :
    WgpuApp × EventResult :=
  (app',
    if should_close then .exit
    else
      match wgpuEventResponse r resp window_id with
      | some er =>
        if er.repaint then
          (if repaint_asap then .repaintNow window_id else .repaintNext window_id)
        else .wait
      | none => .wait)

/-- The `WindowEvent` arm of `WgpuWinitApp::on_event` (run.rs lines
2542-2643), after `build_windows` ran. -/
def wgpuHandleWindowEvent (app : WgpuApp) (r : WgpuRunning)
    (should_close₀ should_close₁ : Bool) (resp : EventResponse)
    (window_id : WindowId) (event : WindowEvent) : WgpuApp × EventResult :=
  let viewport_id := lookupA r.windows_id window_id
  match event with
  | .focused gained =>
    wgpuFinishEvent { app with is_focused := if gained then viewport_id else none }
      r should_close₁ resp window_id false
  | .resized width height =>
    let r' :=
      match viewport_id with
      | some vid =>
        if 0 < width ∧ 0 < height then painterOnWindowResized r vid width height else r
      | none => r
    wgpuFinishEvent { app with running := some r' } r' should_close₁ resp window_id true
  | .scaleFactorChanged width height =>
    let r' :=
      match viewport_id with
      | some vid => painterOnWindowResized r vid width height
      | none => r
    wgpuFinishEvent { app with running := some r' } r' should_close₁ resp window_id true
  | .closeRequested =>
    if should_close₀ then (app, .exit)
    else wgpuFinishEvent app r should_close₁ resp window_id false
  | .other => wgpuFinishEvent app r should_close₁ resp window_id false

/-- `WgpuWinitApp::on_event` for window events (run.rs lines 2486-2643):
`build_windows` always runs first (a no-op without running state), then the
`WindowEvent` arm; without running state every window event is `Wait`. -/
def wgpuOnEvent (create : ViewportId → Option (WindowId × Nat × Nat)) (app : WgpuApp)
    (should_close₀ should_close₁ : Bool) (resp : EventResponse)
    (window_id : WindowId) (event : WindowEvent) : Option (WgpuApp × EventResult) :=
  match app.running with
  | none => some (app, .wait)
  | some r =>
    match wgpuBuildWindows create r with
    | none => none
    | some r' =>
      some (wgpuHandleWindowEvent { app with running := some r' } r'
        should_close₀ should_close₁ resp window_id event)

/-- A running glow registry with a live MAIN window, for the C6 witness. -/
def c6GlowCtx : GlutinWindowContext :=
  { current_gl_context := true,
    viewports := [(0, { gl_surface := some (800, 600), window := some 100,
                        pair := ⟨0, 0⟩, render := none, egui_winit := true })],
    viewports_maps := [(100, 0)],
    builders := [(0, { icon := none, data := 1 })] }

/-- A live MAIN record (glow), used by the C5 example states. -/
def c5Main : GlowWindow :=
  { gl_surface := some (800, 600), window := some 100, pair := ⟨0, 0⟩,
    render := none, egui_winit := true }

/-- A non-MAIN record WITH a render callback (a deferred viewport). -/
def c5Deferred : GlowWindow :=
  { gl_surface := some (10, 10), window := some 200, pair := ⟨1, 0⟩,
    render := some (), egui_winit := true }

/-- Registry with MAIN and the render-callback viewport 1. -/
def c5Ctx : GlutinWindowContext :=
  { current_gl_context := true,
    viewports := [(0, c5Main), (1, c5Deferred)],
    viewports_maps := [(100, 0), (200, 1)],
    builders := [(0, { icon := none, data := 1 }), (1, { icon := none, data := 2 })] }

/-- A synchronous child (no render callback) at viewport 2, window 300. -/
def c5Sync : GlowWindow :=
  { gl_surface := some (10, 10), window := some 300, pair := ⟨2, 0⟩,
    render := none, egui_winit := true }

/-- Registry with MAIN and the synchronous child viewport 2. -/
def c5SyncCtx : GlutinWindowContext :=
  { current_gl_context := true,
    viewports := [(0, c5Main), (2, c5Sync)],
    viewports_maps := [(100, 0), (300, 2)],
    builders := [(0, { icon := none, data := 1 }), (2, { icon := none, data := 3 })] }

/-- A one-window glow registry for the C8 witness. -/
def c8Ctx : GlutinWindowContext :=
  { current_gl_context := true,
    viewports := [(0, { gl_surface := some (800, 600), window := some 100,
                        pair := ⟨0, 0⟩, render := none, egui_winit := true })],
    viewports_maps := [(100, 0)],
    builders := [(0, { icon := none, data := 1 })] }

/-- A one-window wgpu running state for the C8 witness. -/
def c8Wgpu : WgpuRunning :=
  { surfaces := [(0, (800, 600))],
    viewports := [(0, { window := some 100, state := true, render := none, parent_id := 0 })],
    builders := [(0, { icon := none, data := 1 })],
    windows_id := [(100, 0)] }

/-- A one-window glow registry (MAIN, window 100) for the C7 states. -/
def c7Ctx : GlutinWindowContext :=
  { current_gl_context := true,
    viewports := [(0, { gl_surface := some (800, 600), window := some 100,
                        pair := ⟨0, 0⟩, render := none, egui_winit := true })],
    viewports_maps := [(100, 0)],
    builders := [(0, { icon := none, data := 1 })] }

/-- Glow registry with MAIN and a stale viewport 3, for the C4 witness. -/
def c4GlowCtx : GlutinWindowContext :=
  { current_gl_context := true,
    viewports := [(0, { gl_surface := some (800, 600), window := some 100,
                        pair := ⟨0, 0⟩, render := none, egui_winit := true }),
                  (3, { gl_surface := some (10, 10), window := some 300,
                        pair := ⟨3, 0⟩, render := some (), egui_winit := true })],
    viewports_maps := [(100, 0), (300, 3)],
    builders := [(0, { icon := none, data := 1 }), (3, { icon := none, data := 3 })] }

/-- Wgpu running state with MAIN and a stale viewport 7, for the C4
counterexample and witness. -/
def c4Stale : WgpuRunning :=
  { surfaces := [(0, (800, 600)), (7, (100, 100))],
    viewports := [(0, { window := some 100, state := true, render := none, parent_id := 0 }),
                  (7, { window := some 200, state := true, render := some (), parent_id := 0 })],
    builders := [(0, { icon := none, data := 1 }), (7, { icon := none, data := 7 })],
    windows_id := [(100, 0), (200, 7)] }

/-! ### Theorems -/

theorem lookupA_nil {β : Type} (a : Nat) : lookupA ([] : List (Nat × β)) a = none := rfl

theorem lookupA_cons {β : Type} (k : Nat) (v : β) (m : List (Nat × β)) (a : Nat) :
    lookupA ((k, v) :: m) a = if k = a then some v else lookupA m a := rfl

theorem removeA_cons {β : Type} (kv : Nat × β) (m : List (Nat × β)) (a : Nat) :
    removeA (kv :: m) a = if kv.1 = a then removeA m a else kv :: removeA m a := by
  rw [removeA, List.filter_cons]
  by_cases h : kv.1 = a
  · simp [h, removeA]
  · simp [h, removeA]

theorem lookupA_removeA_self {β : Type} (m : List (Nat × β)) (k : Nat) :
    lookupA (removeA m k) k = none := by
  induction m with
  | nil => rfl
  | cons hd tl ih =>
    rw [removeA_cons]
    by_cases h : hd.1 = k
    · simp only [if_pos h]; exact ih
    · simp only [if_neg h]
      obtain ⟨k1, v1⟩ := hd
      rw [lookupA_cons, if_neg h]
      exact ih

theorem lookupA_removeA_other {β : Type} (m : List (Nat × β)) (k k' : Nat) (h : k' ≠ k) :
    lookupA (removeA m k) k' = lookupA m k' := by
  induction m with
  | nil => rfl
  | cons hd tl ih =>
    obtain ⟨k1, v1⟩ := hd
    rw [removeA_cons]
    by_cases hk : k1 = k
    · rw [if_pos hk, lookupA_cons]
      have : k1 ≠ k' := by rw [hk]; exact fun e => h e.symm
      rw [if_neg this]
      exact ih
    · rw [if_neg hk, lookupA_cons, lookupA_cons]
      by_cases he : k1 = k'
      · rw [if_pos he, if_pos he]
      · rw [if_neg he, if_neg he]
        exact ih

theorem lookupA_insertA_self {β : Type} (m : List (Nat × β)) (k : Nat) (v : β) :
    lookupA (insertA m k v) k = some v := by
  rw [insertA, lookupA_cons, if_pos rfl]

theorem lookupA_insertA_other {β : Type} (m : List (Nat × β)) (k k' : Nat) (v : β) (h : k' ≠ k) :
    lookupA (insertA m k v) k' = lookupA m k' := by
  rw [insertA, lookupA_cons, if_neg (fun e => h e.symm)]
  exact lookupA_removeA_other m k k' h

theorem lookupA_isSome_insertA {β : Type} (m : List (Nat × β)) (k k' : Nat) (v : β)
    (h : (lookupA m k').isSome = true) : (lookupA (insertA m k v) k').isSome = true := by
  by_cases he : k' = k
  · subst he; rw [lookupA_insertA_self]; rfl
  · rw [lookupA_insertA_other m k k' v he]; exact h

theorem lookupA_removeA_none {β : Type} (m : List (Nat × β)) (k k' : Nat)
    (h : lookupA m k' = none) : lookupA (removeA m k) k' = none := by
  by_cases he : k' = k
  · subst he; exact lookupA_removeA_self _ _
  · rw [lookupA_removeA_other m k k' he]; exact h

theorem lookupA_filter_key_pos {β : Type} (m : List (Nat × β)) (q : Nat → Bool) (k : Nat)
    (h : q k = true) : lookupA (m.filter (fun kv => q kv.1)) k = lookupA m k := by
  induction m with
  | nil => rfl
  | cons hd tl ih =>
    obtain ⟨k1, v1⟩ := hd
    rw [List.filter_cons]
    by_cases hq : q k1 = true
    · rw [if_pos hq, lookupA_cons, lookupA_cons]
      by_cases he : k1 = k
      · rw [if_pos he, if_pos he]
      · rw [if_neg he, if_neg he]
        exact ih
    · have hq' : ¬ ((fun kv : Nat × β => q kv.1) (k1, v1) = true) := hq
      rw [if_neg hq', lookupA_cons]
      have he : k1 ≠ k := by
        intro e
        exact hq (e ▸ h)
      rw [if_neg he]
      exact ih

theorem lookupA_filter_key_neg {β : Type} (m : List (Nat × β)) (q : Nat → Bool) (k : Nat)
    (h : q k = false) : lookupA (m.filter (fun kv => q kv.1)) k = none := by
  induction m with
  | nil => rfl
  | cons hd tl ih =>
    obtain ⟨k1, v1⟩ := hd
    rw [List.filter_cons]
    by_cases hq : q k1 = true
    · rw [if_pos hq, lookupA_cons]
      have he : k1 ≠ k := by
        intro e
        rw [e, h] at hq
        exact Bool.false_ne_true hq
      rw [if_neg he]
      exact ih
    · have hq' : ¬ ((fun kv : Nat × β => q kv.1) (k1, v1) = true) := hq
      rw [if_neg hq']
      exact ih

theorem lookupA_filter_val {β : Type} (m : List (Nat × β)) (q : β → Bool) (k : Nat) (v : β)
    (h : lookupA (m.filter (fun kv => q kv.2)) k = some v) : q v = true := by
  induction m with
  | nil => exact absurd h (by rw [List.filter_nil, lookupA_nil]; exact Option.noConfusion)
  | cons hd tl ih =>
    obtain ⟨k1, v1⟩ := hd
    rw [List.filter_cons] at h
    by_cases hq : q v1 = true
    · rw [if_pos hq, lookupA_cons] at h
      by_cases he : k1 = k
      · rw [if_pos he] at h
        cases h
        exact hq
      · rw [if_neg he] at h
        exact ih h
    · have hq' : ¬ ((fun kv : Nat × β => q kv.2) (k1, v1) = true) := hq
      rw [if_neg hq'] at h
      exact ih h

theorem contains_iff_mem (l : List Nat) (x : Nat) : l.contains x = true ↔ x ∈ l := by
  induction l with
  | nil => simp
  | cons a t ih => simp [List.contains] at *

/-! ### C1 -/

/-- C1 counterexample: off Windows (`cfg!(target_os = "windows")` false), a
`RepaintNow(5)` outcome processed at time 20 with a pending entry `(5, 10)`
does NOT invoke `run_ui_and_paint` inside the handler (the paint log stays
empty) and does NOT remove the pending entry — it overwrites it with `now`,
deferring the repaint to the idle pass.  This falsifies the claim that in
either run mode `RepaintNow` paints immediately and removes the entry. -/
theorem c1_repaintNow_counterexample :
    ¬ ((processOne .runAndReturn false 20 c1State (.repaintNow 5)).paints = [5] ∧
       lookupA (processOne .runAndReturn false 20 c1State (.repaintNow 5)).sched 5 = none) := by
  decide

/-- C1 (amended): processing `RepaintNow(w)` in either run mode paints the
frame immediately and synchronously and removes any pending schedule entry
for `w` on Windows only; on every other platform it performs no synchronous
paint and instead sets the pending entry to `now` (behaving like
`RepaintNext`). -/
theorem c1_repaintNow_platform (mode : RunMode) (s : LoopState) (w : WindowId) (now : Instant) :
    ((processOne mode true now s (.repaintNow w)).paints = s.paints ++ [w] ∧
      lookupA (processOne mode true now s (.repaintNow w)).sched w = none) ∧
    ((processOne mode false now s (.repaintNow w)).paints = s.paints ∧
      lookupA (processOne mode false now s (.repaintNow w)).sched w = some now) := by
  refine ⟨⟨rfl, ?_⟩, rfl, ?_⟩
  · show lookupA (removeA s.sched w) w = none
    exact lookupA_removeA_self _ _
  · show lookupA (insertA s.sched w now) w = some now
    exact lookupA_insertA_self _ _ _

/-! ### C2 -/

/-- C2: starting from no pending entry for window `w`, processing
`RepaintAt(w, t1)` followed by `RepaintAt(w, t2)` in one batch — in either
arrival order, either run mode, any platform — leaves the pending instant at
`min t1 t2`: the earlier request always wins. -/
theorem c2_repaintAt_min_commutative (mode : RunMode) (isWindows : Bool) (now : Instant)
    (s : LoopState) (w : WindowId) (t1 t2 : Instant)
    (h : lookupA s.sched w = none) :
    lookupA (processBatch mode isWindows now
        [.repaintAt w t1, .repaintAt w t2] s).sched w = some (min t1 t2) ∧
    lookupA (processBatch mode isWindows now
        [.repaintAt w t2, .repaintAt w t1] s).sched w = some (min t1 t2) := by
  have key : ∀ ta tb, lookupA (processBatch mode isWindows now
      [.repaintAt w ta, .repaintAt w tb] s).sched w = some (min ta tb) := by
    intro ta tb
    show lookupA (processOne mode isWindows now
        (processOne mode isWindows now s (.repaintAt w ta)) (.repaintAt w tb)).sched w = _
    simp only [processOne, h, lookupA_insertA_self]
  exact ⟨key t1 t2, by rw [key t2 t1, Nat.min_comm]⟩

/-- Witness for C2 at `w = 3`, `t1 = 9`, `t2 = 4`. -/
theorem c2_repaintAt_min_commutative_witness :
    lookupA (processBatch .runAndReturn true 0
        [.repaintAt 3 9, .repaintAt 3 4] c1State).sched 3 = some 4 ∧
    lookupA (processBatch .runAndReturn true 0
        [.repaintAt 3 4, .repaintAt 3 9] c1State).sched 3 = some 4 :=
  c2_repaintAt_min_commutative .runAndReturn true 0 c1State 3 9 4 rfl

/-! ### C3 -/

/-- C3: a `RequestRepaint(viewport, when, frame_nr)` user event is dropped
(producing `Wait`, scheduling nothing) whenever `frame_nr` differs from the
application's current frame number, and produces `RepaintAt(window, when)`
when it matches and the viewport has a live window. -/
theorem c3_requestRepaint_stale_dropped (appFrameNr : Nat)
    (getW : ViewportId → Option WindowId) (id : ViewportId) (when : Instant) (frame_nr : Nat) :
    (appFrameNr ≠ frame_nr →
      handleRequestRepaint appFrameNr getW id when frame_nr = [.wait]) ∧
    (∀ w, appFrameNr = frame_nr → getW id = some w →
      handleRequestRepaint appFrameNr getW id when frame_nr = [.repaintAt w when]) := by
  constructor
  · intro hne
    rw [handleRequestRepaint, if_neg hne]
  · intro w heq hw
    rw [handleRequestRepaint, if_pos heq, hw]

/-- Witness for C3: a stale request for frame 5 after frame 6 completed is
dropped, a fresh one for frame 6 with live window 11 is scheduled. -/
theorem c3_requestRepaint_stale_dropped_witness :
    handleRequestRepaint 6 (fun _ => some 11) 1 42 5 = [.wait] ∧
    handleRequestRepaint 6 (fun _ => some 11) 1 42 6 = [.repaintAt 11 42] :=
  ⟨(c3_requestRepaint_stale_dropped 6 (fun _ => some 11) 1 42 5).1 (by decide),
   (c3_requestRepaint_stale_dropped 6 (fun _ => some 11) 1 42 6).2 11 rfl rfl⟩

/-! ### C9 -/

/-- C9: within one batch of `EventResult`s, `Exit` short-circuits.  With
`b1` the exit-free prefix: the whole batch reduces to processing `b1` and
then `exitFinish` (shutdown via `save_and_destroy` exactly once, exited flag
set), everything after the first `Exit` is ignored, and the idle pass (which
would request redraws and set the wait policy) never runs, so no other
outcome of the batch survives and shutdown happens before the pump yields
control. -/
theorem c9_exit_short_circuits (mode : RunMode) (isWindows : Bool) (now : Instant)
    (live : WindowId → Bool) (b1 b2 : List EventResult) (s : LoopState)
    (h : EventResult.exit ∉ b1) :
    processBatch mode isWindows now (b1 ++ EventResult.exit :: b2) s =
      exitFinish mode (processBatch mode isWindows now b1 s) ∧
    (processBatch mode isWindows now (b1 ++ EventResult.exit :: b2) s).saves =
      (processBatch mode isWindows now b1 s).saves + 1 ∧
    (processBatch mode isWindows now (b1 ++ EventResult.exit :: b2) s).exited = true ∧
    loopStep mode isWindows now live (b1 ++ EventResult.exit :: b2) s =
      processBatch mode isWindows now (b1 ++ EventResult.exit :: b2) s := by
  have key : ∀ (b1 : List EventResult) (s : LoopState), EventResult.exit ∉ b1 →
      processBatch mode isWindows now (b1 ++ EventResult.exit :: b2) s =
        exitFinish mode (processBatch mode isWindows now b1 s) := by
    intro b1
    induction b1 with
    | nil => intro s _; rfl
    | cons e rest ih =>
      intro s hmem
      have hne : e ≠ EventResult.exit := fun he => hmem (he ▸ List.mem_cons_self e rest)
      have hrest : EventResult.exit ∉ rest := fun hr => hmem (List.mem_cons_of_mem e hr)
      cases e with
      | wait => exact ih _ hrest
      | repaintNow w => exact ih _ hrest
      | repaintNext w => exact ih _ hrest
      | repaintAt w t => exact ih _ hrest
      | exit => exact absurd rfl hne
  have h1 := key b1 s h
  have hsaves : (exitFinish mode (processBatch mode isWindows now b1 s)).saves =
      (processBatch mode isWindows now b1 s).saves + 1 := by
    cases mode <;> rfl
  have hexited : (exitFinish mode (processBatch mode isWindows now b1 s)).exited = true := by
    cases mode <;> rfl
  refine ⟨h1, by rw [h1]; exact hsaves, by rw [h1]; exact hexited, ?_⟩
  rw [loopStep, h1]
  have : (exitFinish mode (processBatch mode isWindows now b1 s)).exited = true := hexited
  simp only [this, if_pos rfl.le]
  cases hEx : (exitFinish mode (processBatch mode isWindows now b1 s)).exited
  · rw [hEx] at this; exact absurd this (by decide)
  · simp

/-- Witness for C9: a batch `[RepaintNext 4, Exit, RepaintNext 9]` processed
from a fresh state runs shutdown once, exits, and ignores the tail. -/
theorem c9_exit_short_circuits_witness :
    processBatch .runAndReturn true 0
        ([.repaintNext 4] ++ EventResult.exit :: [.repaintNext 9]) c1State =
      exitFinish .runAndReturn
        (processBatch .runAndReturn true 0 [.repaintNext 4] c1State) ∧
    (processBatch .runAndReturn true 0
        ([.repaintNext 4] ++ EventResult.exit :: [.repaintNext 9]) c1State).saves =
      (processBatch .runAndReturn true 0 [.repaintNext 4] c1State).saves + 1 ∧
    (processBatch .runAndReturn true 0
        ([.repaintNext 4] ++ EventResult.exit :: [.repaintNext 9]) c1State).exited = true ∧
    loopStep .runAndReturn true 0 (fun _ => true)
        ([.repaintNext 4] ++ EventResult.exit :: [.repaintNext 9]) c1State =
      processBatch .runAndReturn true 0
        ([.repaintNext 4] ++ EventResult.exit :: [.repaintNext 9]) c1State :=
  c9_exit_short_circuits .runAndReturn true 0 (fun _ => true)
    [.repaintNext 4] [.repaintNext 9] c1State (by decide)

/-! ### C10 -/

/-- C10: before the first `Resumed` event has initialised the application
(running state `None`), both backends are inert: `run_ui_and_paint` returns
exactly `[Wait]` for every window id (touching no state), and every window
event given to `on_event` returns `Ok(Wait)` with the application state
unchanged; no panic occurs. -/
theorem c10_inert_before_resume :
    (∀ (shouldClose : Bool) (out : FullOutput) (changes : Builder → Builder → Bool × Builder)
       (now : Instant) (window_id : WindowId),
       glowRunUiAndPaint none shouldClose out changes now window_id =
         some { results := [.wait], ctx := none, didPaint := false }) ∧
    (∀ (shouldClose : Bool) (out : FullOutput) (now : Instant) (window_id : WindowId),
       wgpuRunUiAndPaint none shouldClose out now window_id =
         some { results := [.wait], running := none, didPaint := false }) ∧
    (∀ (fo : Option ViewportId) (sc₀ sc₁ : Bool) (resp : EventResponse)
       (window_id : WindowId) (event : WindowEvent),
       glowOnWindowEvent { running := none, is_focused := fo } sc₀ sc₁ resp window_id event =
         some ({ running := none, is_focused := fo }, .wait)) ∧
    (∀ (create : ViewportId → Option (WindowId × Nat × Nat)) (fo : Option ViewportId)
       (sc₀ sc₁ : Bool) (resp : EventResponse) (window_id : WindowId) (event : WindowEvent),
       wgpuOnEvent create { running := none, is_focused := fo } sc₀ sc₁ resp window_id event =
         some ({ running := none, is_focused := fo }, .wait)) := by
  refine ⟨fun _ _ _ _ _ => rfl, fun _ _ _ _ => rfl, fun _ _ _ _ _ _ => rfl,
    fun _ _ _ _ _ _ _ => rfl⟩

/-! ### C6 -/

/-- C6: `save_and_destroy` is idempotent in both backends.  The first call
takes the running state (leaving `None`); a second call finds no running
state, performs no save, no app-exit notification and no resource release,
and leaves the state unchanged — so two invocations have the same observable
effect as one. -/
theorem c6_save_and_destroy_idempotent :
    (∀ (s s1 : Option GlutinWindowContext) (e1 : List Effect),
        glowSaveAndDestroy s = some (s1, e1) →
        s1 = none ∧ glowSaveAndDestroy s1 = some (s1, [])) ∧
    (∀ (s : Option WgpuRunning),
        (wgpuSaveAndDestroy s).1 = none ∧
        wgpuSaveAndDestroy (wgpuSaveAndDestroy s).1 = ((wgpuSaveAndDestroy s).1, [])) := by
  constructor
  · intro s s1 e1 h
    have hs1 : s1 = none := by
      cases s with
      | none =>
        simp only [glowSaveAndDestroy] at h
        exact (congrArg Prod.fst ((Option.some.injEq _ _).mp h)).symm
      | some ctx =>
        simp only [glowSaveAndDestroy] at h
        cases hl : lookupA ctx.viewports mainViewport with
        | none => rw [hl] at h; exact absurd h (by simp)
        | some mrec =>
          rw [hl] at h
          have := (Option.some.injEq _ _).mp h
          exact (congrArg Prod.fst this).symm
    subst hs1
    exact ⟨rfl, rfl⟩
  · intro s
    cases s with
    | none => exact ⟨rfl, rfl⟩
    | some r => exact ⟨rfl, rfl⟩

/-- Witness for C6: after shutting down `c6GlowCtx` the second invocation is
a no-op. -/
theorem c6_save_and_destroy_idempotent_witness :
    (none : Option GlutinWindowContext) = none ∧
    glowSaveAndDestroy none = some (none, []) :=
  c6_save_and_destroy_idempotent.1 (some c6GlowCtx) none
    [.save (some 100), .appOnExit, .painterDestroy] (by decide)

/-! ### C5 -/

/-- C5 counterexample: per the spec's data model a record "with a render
callback set" is the synchronous child, so the claim asserts that
`run_ui_and_paint` on window 200 (viewport 1, `render = Some`) performs no
paint and returns `RepaintNow(100)` (the parent's window).  The code does
the opposite: the render-callback viewport is painted independently
(`didPaint = true`, and with an empty `repaint_after` the returned batch is
`[]`, not `[RepaintNow 100]`).  It is the record with `render = None` that
defers to its parent. -/
theorem c5_sync_child_counterexample :
    (glowRunUiAndPaint (some c5Ctx) false ⟨[], []⟩ (fun b _ => (false, b)) 0 200).map
        (fun r => (r.didPaint, r.results)) = some (true, []) ∧
    ¬ ((glowRunUiAndPaint (some c5Ctx) false ⟨[], []⟩ (fun b _ => (false, b)) 0 200).map
        (fun r => (r.didPaint, r.results)) = some (false, [.repaintNow 100])) := by
  constructor
  · decide
  · decide

/-- C5 (amended): a synchronous child is a non-MAIN viewport whose record
has NO independent render callback (`render = None`; these records are
exactly the ones `create_viewport_sync` installs, painted inline by their
parent).  In both backends `run_ui_and_paint` never paints such a viewport:
it returns `RepaintNow(parent's window)` when the parent's window exists,
and no outcome at all when the parent record or its window is missing, in
each case leaving the registry untouched.  Viewports WITH a render callback
are painted independently. -/
theorem c5_sync_child_defers_to_parent :
    (∀ (ctx : GlutinWindowContext) (shouldClose : Bool) (out : FullOutput)
       (changes : Builder → Builder → Bool × Builder) (now : Instant)
       (window_id : WindowId) (vid : ViewportId) (win : GlowWindow),
       lookupA ctx.viewports_maps window_id = some vid →
       lookupA ctx.viewports vid = some win →
       win.render = none → vid ≠ mainViewport →
       ((∀ parent pw, lookupA ctx.viewports win.pair.parent = some parent →
           parent.window = some pw →
           glowRunUiAndPaint (some ctx) shouldClose out changes now window_id =
             some { results := [.repaintNow pw], ctx := some ctx, didPaint := false }) ∧
        (∀ parent, lookupA ctx.viewports win.pair.parent = some parent →
           parent.window = none →
           glowRunUiAndPaint (some ctx) shouldClose out changes now window_id =
             some { results := [], ctx := some ctx, didPaint := false }) ∧
        (lookupA ctx.viewports win.pair.parent = none →
           glowRunUiAndPaint (some ctx) shouldClose out changes now window_id =
             some { results := [], ctx := some ctx, didPaint := false }))) ∧
    (∀ (r : WgpuRunning) (shouldClose : Bool) (out : FullOutput) (now : Instant)
       (window_id : WindowId) (vid : ViewportId) (win : WgpuWindow) (ww : WindowId),
       lookupA r.windows_id window_id = some vid →
       lookupA r.viewports vid = some win →
       win.window = some ww →
       win.render = none → vid ≠ mainViewport →
       ((∀ parent pw, lookupA r.viewports win.parent_id = some parent →
           parent.window = some pw →
           wgpuRunUiAndPaint (some r) shouldClose out now window_id =
             some { results := [.repaintNow pw], running := some r, didPaint := false }) ∧
        (∀ parent, lookupA r.viewports win.parent_id = some parent →
           parent.window = none →
           wgpuRunUiAndPaint (some r) shouldClose out now window_id =
             some { results := [], running := some r, didPaint := false }) ∧
        (lookupA r.viewports win.parent_id = none →
           wgpuRunUiAndPaint (some r) shouldClose out now window_id =
             some { results := [], running := some r, didPaint := false }))) := by
  constructor
  · intro ctx shouldClose out changes now window_id vid win hmap hwin hrender hmain
    have base : glowRunUiAndPaint (some ctx) shouldClose out changes now window_id =
        (match lookupA ctx.viewports win.pair.parent with
         | some parent =>
           match parent.window with
           | some w => some { results := [.repaintNow w], ctx := some ctx, didPaint := false }
           | none => some { results := [], ctx := some ctx, didPaint := false }
         | none => some { results := [], ctx := some ctx, didPaint := false }) := by
      simp only [glowRunUiAndPaint, hmap, hwin]
      rw [if_pos ⟨hrender, hmain⟩]
    refine ⟨?_, ?_, ?_⟩
    · intro parent pw hp hpw
      rw [base]
      simp only [hp, hpw]
    · intro parent hp hpw
      rw [base]
      simp only [hp, hpw]
    · intro hp
      rw [base]
      simp only [hp]
  · intro r shouldClose out now window_id vid win ww hmap hwin hww hrender hmain
    have base : wgpuRunUiAndPaint (some r) shouldClose out now window_id =
        (match lookupA r.viewports win.parent_id with
         | some parent =>
           match parent.window with
           | some w =>
             some { results := [.repaintNow w], running := some r, didPaint := false }
           | none => some { results := [], running := some r, didPaint := false }
         | none => some { results := [], running := some r, didPaint := false }) := by
      simp only [wgpuRunUiAndPaint, hmap, hwin, hww]
      rw [if_pos ⟨hmain, hrender⟩]
    refine ⟨?_, ?_, ?_⟩
    · intro parent pw hp hpw
      rw [base]
      simp only [hp, hpw]
    · intro parent hp hpw
      rw [base]
      simp only [hp, hpw]
    · intro hp
      rw [base]
      simp only [hp]

/-- Witness for C5 (amended): painting the sync child's window 300 defers to
the parent MAIN's window 100. -/
theorem c5_sync_child_defers_to_parent_witness :
    glowRunUiAndPaint (some c5SyncCtx) false ⟨[], []⟩ (fun b _ => (false, b)) 0 300 =
      some { results := [.repaintNow 100], ctx := some c5SyncCtx, didPaint := false } :=
  ((c5_sync_child_defers_to_parent.1 c5SyncCtx false ⟨[], []⟩ (fun b _ => (false, b)) 0 300 2
      c5Sync (by decide) (by decide) (by decide) (by decide)).1 c5Main 100
    (by decide) (by decide))

/-! ### C8 -/

/-- C8: zero-sized resizes are ignored by both backends (no surface change,
no reallocation, no panic — some platforms signal "minimized" as a 0x0
resize); a resize with positive dimensions on a known window updates the
graphics surface to exactly those dimensions before the handler returns, so
before the next paint uses it.  The extra hypotheses record the registry
invariants these paths rely on: the mapped glow record has an input adapter
(its `unwrap` runs on every window event), and on the positive glow path a
surface exists and the GL context is current; on the wgpu side
`build_windows` (which always runs first) is a no-op on the given state. -/
theorem c8_resize_zero_ignored_positive_applied :
    (∀ (app : GlowApp) (ctx : GlutinWindowContext) (sc₀ sc₁ : Bool) (resp : EventResponse)
       (window_id : WindowId) (width height : Nat),
       app.running = some ctx → (width = 0 ∨ height = 0) →
       (glowEventResponse ctx resp window_id).isSome = true →
       ∃ res, glowOnWindowEvent app sc₀ sc₁ resp window_id (.resized width height) =
         some ({ app with running := some ctx }, res)) ∧
    (∀ (app : GlowApp) (ctx : GlutinWindowContext) (sc₀ sc₁ : Bool) (resp : EventResponse)
       (window_id : WindowId) (width height : Nat) (vid : ViewportId) (win : GlowWindow)
       (sz : Nat × Nat),
       app.running = some ctx → 0 < width → 0 < height →
       lookupA ctx.viewports_maps window_id = some vid →
       lookupA ctx.viewports vid = some win →
       win.gl_surface = some sz →
       ctx.current_gl_context = true →
       win.egui_winit = true →
       ∃ (ctx' : GlutinWindowContext) (res : EventResult),
         glowOnWindowEvent app sc₀ sc₁ resp window_id (.resized width height) =
           some ({ app with running := some ctx' }, res) ∧
         lookupA ctx'.viewports vid = some { win with gl_surface := some (width, height) }) ∧
    (∀ (create : ViewportId → Option (WindowId × Nat × Nat)) (app : WgpuApp)
       (r : WgpuRunning) (sc₀ sc₁ : Bool) (resp : EventResponse)
       (window_id : WindowId) (width height : Nat),
       app.running = some r →
       wgpuBuildWindows create r = some r →
       (width = 0 ∨ height = 0) →
       ∃ res, wgpuOnEvent create app sc₀ sc₁ resp window_id (.resized width height) =
         some ({ app with running := some r }, res)) ∧
    (∀ (create : ViewportId → Option (WindowId × Nat × Nat)) (app : WgpuApp)
       (r : WgpuRunning) (sc₀ sc₁ : Bool) (resp : EventResponse)
       (window_id : WindowId) (width height : Nat) (vid : ViewportId),
       app.running = some r →
       wgpuBuildWindows create r = some r →
       0 < width → 0 < height →
       lookupA r.windows_id window_id = some vid →
       ∃ (r' : WgpuRunning) (res : EventResult),
         wgpuOnEvent create app sc₀ sc₁ resp window_id (.resized width height) =
           some ({ app with running := some r' }, res) ∧
         lookupA r'.surfaces vid = some (width, height)) := by
  refine ⟨?_, ?_, ?_, ?_⟩
  · intro app ctx sc₀ sc₁ resp window_id width height happ hzero hresp
    obtain ⟨er, her⟩ := Option.isSome_iff_exists.mp hresp
    have hneg : ¬ (0 < width ∧ 0 < height) := by
      rcases hzero with h | h <;> omega
    simp only [glowOnWindowEvent, happ]
    rw [if_neg hneg]
    simp only [finishGlowEvent, her]
    exact ⟨_, rfl⟩
  · intro app ctx sc₀ sc₁ resp window_id width height vid win sz happ hw hh hmap hwin hsurf
      hctx hwinit
    have hres : ctx.resize vid width height = some { ctx with viewports := insertA ctx.viewports vid ({ win with gl_surface := some (max width 1, max height 1) }) } := by
      simp only [GlutinWindowContext.resize, hwin, hsurf]
      rw [if_pos hctx]
    rw [Nat.max_eq_left hw, Nat.max_eq_left hh] at hres
    have her : glowEventResponse ({ ctx with viewports := insertA ctx.viewports vid ({ win with gl_surface := some (width, height) }) }) resp window_id = some resp := by
      simp only [glowEventResponse, hmap, lookupA_insertA_self, hwinit]
      rw [if_pos trivial]
    refine ⟨{ ctx with viewports := insertA ctx.viewports vid ({ win with gl_surface := some (width, height) }) },
      if sc₁ = true then EventResult.exit
      else if resp.repaint = true then EventResult.repaintNow window_id else EventResult.wait,
      ?_, lookupA_insertA_self _ _ _⟩
    simp only [glowOnWindowEvent, happ]
    rw [if_pos ⟨hw, hh⟩]
    simp only [hmap, hres, finishGlowEvent, her]
    exact rfl
  · intro create app r sc₀ sc₁ resp window_id width height happ hbuild hzero
    have hneg : ¬ (0 < width ∧ 0 < height) := by
      rcases hzero with h | h <;> omega
    simp only [wgpuOnEvent, happ, hbuild, wgpuHandleWindowEvent]
    cases hv : lookupA r.windows_id window_id with
    | none => exact ⟨_, rfl⟩
    | some vid =>
      have hif : (if 0 < width ∧ 0 < height then painterOnWindowResized r vid width height else r)
          = r := if_neg hneg
      simp only [hif]
      exact ⟨_, rfl⟩
  · intro create app r sc₀ sc₁ resp window_id width height vid happ hbuild hw hh hmap
    refine ⟨painterOnWindowResized r vid width height, ?_, ?_, lookupA_insertA_self _ _ _⟩
    rotate_left
    · simp only [wgpuOnEvent, happ, hbuild, wgpuHandleWindowEvent, hmap, wgpuFinishEvent]
      rw [if_pos ⟨hw, hh⟩]
      exact rfl

/-- Witness for C8: a 0x5 resize leaves both backends untouched, a 640x480
resize updates the surface of viewport 0 in both. -/
theorem c8_resize_zero_ignored_positive_applied_witness :
    (∃ res, glowOnWindowEvent ⟨some c8Ctx, some 0⟩ false false ⟨false, false⟩ 100
        (.resized 0 5) = some (⟨some c8Ctx, some 0⟩, res)) ∧
    (∃ (ctx' : GlutinWindowContext) (res : EventResult),
        glowOnWindowEvent ⟨some c8Ctx, some 0⟩ false false ⟨false, false⟩ 100
          (.resized 640 480) = some (⟨some ctx', some 0⟩, res) ∧
        lookupA ctx'.viewports 0 =
          some { gl_surface := some (640, 480), window := some 100,
                 pair := ⟨0, 0⟩, render := none, egui_winit := true }) ∧
    (∃ res, wgpuOnEvent (fun _ => none) ⟨some c8Wgpu, some 0⟩ false false ⟨false, false⟩ 100
        (.resized 0 5) = some (⟨some c8Wgpu, some 0⟩, res)) ∧
    (∃ (r' : WgpuRunning) (res : EventResult),
        wgpuOnEvent (fun _ => none) ⟨some c8Wgpu, some 0⟩ false false ⟨false, false⟩ 100
          (.resized 640 480) = some (⟨some r', some 0⟩, res) ∧
        lookupA r'.surfaces 0 = some (640, 480)) :=
  ⟨c8_resize_zero_ignored_positive_applied.1 ⟨some c8Ctx, some 0⟩ c8Ctx false false
      ⟨false, false⟩ 100 0 5 rfl (Or.inl rfl) (by decide),
   c8_resize_zero_ignored_positive_applied.2.1 ⟨some c8Ctx, some 0⟩ c8Ctx false false
      ⟨false, false⟩ 100 640 480 0
      { gl_surface := some (800, 600), window := some 100, pair := ⟨0, 0⟩,
        render := none, egui_winit := true } (800, 600)
      rfl (by decide) (by decide) rfl rfl rfl rfl rfl,
   c8_resize_zero_ignored_positive_applied.2.2.1 (fun _ => none) ⟨some c8Wgpu, some 0⟩
      c8Wgpu false false ⟨false, false⟩ 100 0 5 rfl (by decide) (Or.inl rfl),
   c8_resize_zero_ignored_positive_applied.2.2.2 (fun _ => none) ⟨some c8Wgpu, some 0⟩
      c8Wgpu false false ⟨false, false⟩ 100 640 480 0 rfl (by decide) (by decide)
      (by decide) rfl⟩

/-! ### C7 -/

/-- C7 counterexample: viewport 0 has the live window 100 and its frame
output declares `repaint_after = 0`, yet when the same frame's integration
reports `should_close` the returned outcomes are `[Exit]` — they do NOT
include `RepaintNext(100)`, so the claim fails as stated (it holds only for
frames that do not request application close). -/
theorem c7_counterexample :
    ((glowRunUiAndPaint (some c7Ctx) true { repaint_after := [(0, 0)], viewports := [] }
        (fun b _ => (false, b)) 5 100).map (fun r => r.results)) = some [.exit] ∧
    ¬ (EventResult.repaintNext 100 ∈
        ((glowRunUiAndPaint (some c7Ctx) true { repaint_after := [(0, 0)], viewports := [] }
          (fun b _ => (false, b)) 5 100).map (fun r => r.results)).getD []) := by
  constructor
  · decide
  · decide

/-- Helper: one idle step preserves "already fired": once `w` is in the
redraw log with no schedule entry, no later entry of the pass disturbs
that. -/
theorem idleStep_preserves_fired (mode : RunMode) (now : Instant) (live : WindowId → Bool)
    (s : LoopState) (e : WindowId × Instant) (w : WindowId)
    (h1 : w ∈ s.redraws) (h2 : lookupA s.sched w = none) :
    w ∈ (idleStep mode now live s e).redraws ∧
    lookupA (idleStep mode now live s e).sched w = none := by
  cases mode <;> by_cases hd : e.2 ≤ now <;> by_cases hl : live e.1 = true <;>
    simp only [idleStep.eq_def, hd, hl, if_true, if_false, ite_true, ite_false] <;>
    constructor <;>
    first
      | exact h1
      | exact h2
      | exact List.mem_append_left _ h1
      | exact lookupA_removeA_none _ _ _ h2

/-- Helper: the whole idle fold preserves "already fired". -/
theorem foldl_idleStep_preserves_fired (mode : RunMode) (now : Instant)
    (live : WindowId → Bool) (entries : List (WindowId × Instant)) (s : LoopState)
    (w : WindowId) (h1 : w ∈ s.redraws) (h2 : lookupA s.sched w = none) :
    w ∈ (entries.foldl (idleStep mode now live) s).redraws ∧
    lookupA (entries.foldl (idleStep mode now live) s).sched w = none := by
  induction entries generalizing s with
  | nil => exact ⟨h1, h2⟩
  | cons e rest ih =>
    rw [List.foldl_cons]
    obtain ⟨p1, p2⟩ := idleStep_preserves_fired mode now live s e w h1 h2
    exact ih _ p1 p2

/-- C7 (amended): provided the frame did not request application close
(`should_close` false), a viewport with a live window whose frame output
declared `repaint_after = 0` gets `RepaintNext(window)` among the frame's
outcomes (first two conjuncts: the paint path returns the control-flow list,
and that list contains the `RepaintNext`); and processing `RepaintNext(w)`
sets the pending instant to `now`, after which any idle pass at `now' ≥ now`
with `w`'s window alive requests a native redraw for `w` and clears its
schedule entry — regardless of the other scheduled entries, so it is never
deferred behind a window scheduled for a later instant. -/
theorem c7_repaint_after_zero_fires_next_pass :
    (∀ (ctx : GlutinWindowContext) (shouldClose : Bool) (out : FullOutput)
       (changes : Builder → Builder → Bool × Builder) (now : Instant)
       (window_id : WindowId) (vid : ViewportId) (win : GlowWindow) (ww : WindowId)
       (sz : Nat × Nat),
       lookupA ctx.viewports_maps window_id = some vid →
       lookupA ctx.viewports vid = some win →
       ¬ (win.render = none ∧ vid ≠ mainViewport) →
       win.window = some ww → win.egui_winit = true →
       win.gl_surface = some sz → ctx.current_gl_context = true →
       glowRunUiAndPaint (some ctx) shouldClose out changes now window_id =
         some { results := glowControlFlow shouldClose now (buildWindowMap ctx.viewports)
                  out.repaint_after,
                ctx := some (process_viewport_builders changes ctx out.viewports),
                didPaint := true }) ∧
    (∀ (wm : List (ViewportId × WindowId)) (ra : List (ViewportId × Duration))
       (now : Instant) (vid : ViewportId) (w : WindowId),
       (vid, 0) ∈ ra → lookupA wm vid = some w →
       EventResult.repaintNext w ∈ glowControlFlow false now wm ra) ∧
    (∀ (mode : RunMode) (isWindows : Bool) (now now' : Instant) (live : WindowId → Bool)
       (s : LoopState) (w : WindowId),
       live w = true → now ≤ now' →
       lookupA (processOne mode isWindows now s (.repaintNext w)).sched w = some now ∧
       w ∈ (idlePass mode now' live (processOne mode isWindows now s (.repaintNext w))).redraws ∧
       lookupA (idlePass mode now' live
           (processOne mode isWindows now s (.repaintNext w))).sched w = none) := by
  refine ⟨?_, ?_, ?_⟩
  · intro ctx shouldClose out changes now window_id vid win ww sz hmap hwin hguard hw
      hwinit hsurf hctx
    simp only [glowRunUiAndPaint, hmap, hwin]
    rw [if_neg hguard]
    simp only [hw, hwinit, hsurf, hctx]
  · intro wm ra now vid w hmem hwm
    have hfalse : ¬ (false = true) := by decide
    simp only [glowControlFlow]
    rw [if_neg hfalse]
    refine List.mem_filterMap.mpr ⟨(vid, 0), hmem, ?_⟩
    simp only [hwm]
    rfl
  · intro mode isWindows now now' live s w hlive hle
    have hs1 : processOne mode isWindows now s (.repaintNext w) =
        { s with sched := insertA s.sched w now } := rfl
    rw [hs1]
    refine ⟨lookupA_insertA_self _ _ _, ?_⟩
    have hip : ∀ (s1 : LoopState),
        (idlePass mode now' live s1).redraws =
          (s1.sched.foldl (idleStep mode now' live) s1).redraws ∧
        (idlePass mode now' live s1).sched =
          (s1.sched.foldl (idleStep mode now' live) s1).sched := by
      intro s1
      rw [idlePass]
      cases nextRepaintTime now' s1.sched <;> exact ⟨rfl, rfl⟩
    obtain ⟨hr, hsch⟩ := hip { s with sched := insertA s.sched w now }
    rw [hr, hsch]
    set s1 : LoopState := { s with sched := insertA s.sched w now } with hs1def
    have hlist : s1.sched = (w, now) :: removeA s.sched w := rfl
    rw [hlist, List.foldl_cons]
    have hstep : idleStep mode now' live s1 (w, now) =
        { s1 with redraws := s1.redraws ++ [w], sched := removeA s1.sched w,
                  controlFlow := .poll } := by
      cases mode <;>
        simp only [idleStep.eq_def, hle, hlive, if_true, ite_true]
    rw [hstep]
    exact foldl_idleStep_preserves_fired mode now' live _ _ w
      (List.mem_append_right _ (List.mem_singleton_self w))
      (lookupA_removeA_self _ _)

/-- Witness for C7 (amended): with `should_close` false, painting window 100
of `c7Ctx` with `repaint_after = [(0, 0)]` yields a batch containing
`RepaintNext(100)`, and processing that outcome at time 5 fires the redraw
on the idle pass at time 5 and clears the entry — even with another window
scheduled later (entry `(9, 50)` in the starting schedule). -/
theorem c7_repaint_after_zero_fires_next_pass_witness :
    EventResult.repaintNext 100 ∈
      glowControlFlow false 5 (buildWindowMap c7Ctx.viewports) [(0, 0)] ∧
    (lookupA (processOne .runAndReturn false 5
        { sched := [(9, 50)], paints := [], redraws := [], saves := 0,
          controlFlow := .waitCF, exited := false } (.repaintNext 100)).sched 100 = some 5 ∧
     100 ∈ (idlePass .runAndReturn 5 (fun _ => true)
        (processOne .runAndReturn false 5
          { sched := [(9, 50)], paints := [], redraws := [], saves := 0,
            controlFlow := .waitCF, exited := false } (.repaintNext 100))).redraws ∧
     lookupA (idlePass .runAndReturn 5 (fun _ => true)
        (processOne .runAndReturn false 5
          { sched := [(9, 50)], paints := [], redraws := [], saves := 0,
            controlFlow := .waitCF, exited := false } (.repaintNext 100))).sched 100 = none) :=
  ⟨c7_repaint_after_zero_fires_next_pass.2.1 (buildWindowMap c7Ctx.viewports) [(0, 0)] 5 0 100
      (List.mem_singleton_self _) rfl,
   c7_repaint_after_zero_fires_next_pass.2.2 .runAndReturn false 5 5 (fun _ => true)
      { sched := [(9, 50)], paints := [], redraws := [], saves := 0,
        controlFlow := .waitCF, exited := false } 100 rfl (Nat.le_refl 5)⟩

/-! ### C4 -/

/-- Generic fold lemma: when every step either keeps the projected list or
appends one element derived from the input, every member of the final list
is an original member or derives from a folded input. -/
theorem foldl_proj_append {σ γ α : Type} (step : σ → γ → σ) (proj : σ → List α) (f : γ → α)
    (hstep : ∀ acc o, proj (step acc o) = proj acc ∨ proj (step acc o) = proj acc ++ [f o]) :
    ∀ (l : List γ) (acc : σ) (x : α), x ∈ proj (l.foldl step acc) →
      x ∈ proj acc ∨ ∃ o ∈ l, f o = x := by
  intro l
  induction l with
  | nil => intro acc x hx; exact Or.inl hx
  | cons o rest ih =>
    intro acc x hx
    rw [List.foldl_cons] at hx
    rcases ih (step acc o) x hx with h | ⟨o', ho', he⟩
    · rcases hstep acc o with he2 | he2
      · rw [he2] at h
        exact Or.inl h
      · rw [he2] at h
        rcases List.mem_append.mp h with h3 | h3
        · exact Or.inl h3
        · exact Or.inr ⟨o, List.mem_cons_self o rest, (List.mem_singleton.mp h3).symm⟩
    · exact Or.inr ⟨o', List.mem_cons_of_mem o ho', he⟩

/-- Generic fold invariance. -/
theorem foldl_pred_preserved {σ γ : Type} (step : σ → γ → σ) (P : σ → Prop)
    (hstep : ∀ acc o, P acc → P (step acc o)) :
    ∀ (l : List γ) (acc : σ), P acc → P (l.foldl step acc) := by
  intro l
  induction l with
  | nil => intro acc h; exact h
  | cons o rest ih =>
    intro acc h
    rw [List.foldl_cons]
    exact ih _ (hstep acc o h)

/-- The retain step marks at most the declared viewport's id active. -/
theorem pvbStep_active (changes : Builder → Builder → Bool × Builder)
    (acc : GlutinWindowContext × List ViewportId × List ViewportOutput)
    (out : ViewportOutput) :
    (pvbStep changes acc out).2.1 = acc.2.1 ∨
    (pvbStep changes acc out).2.1 = acc.2.1 ++ [out.pair.this] := by
  simp only [pvbStep]
  split
  · exact Or.inr rfl
  · exact Or.inl rfl

/-- The retain step leaves at most the folded output pending. -/
theorem pvbStep_pending (changes : Builder → Builder → Bool × Builder)
    (acc : GlutinWindowContext × List ViewportId × List ViewportOutput)
    (out : ViewportOutput) :
    (pvbStep changes acc out).2.2 = acc.2.2 ∨
    (pvbStep changes acc out).2.2 = acc.2.2 ++ [out] := by
  simp only [pvbStep]
  split
  · exact Or.inl rfl
  · exact Or.inr rfl

/-- The creation step always marks the created viewport active. -/
theorem pvbCreate_active (acc : GlutinWindowContext × List ViewportId)
    (out : ViewportOutput) :
    (pvbCreate acc out).2 = acc.2 ++ [out.pair.this] := rfl

/-- The retain step never removes a viewport record. -/
theorem pvbStep_viewports_isSome (changes : Builder → Builder → Bool × Builder)
    (acc : GlutinWindowContext × List ViewportId × List ViewportOutput)
    (out : ViewportOutput) (k : Nat)
    (h : (lookupA acc.1.viewports k).isSome = true) :
    (lookupA (pvbStep changes acc out).1.viewports k).isSome = true := by
  simp only [pvbStep]
  split
  · exact lookupA_isSome_insertA _ _ _ _ h
  · exact h

/-- The creation step never removes a viewport record. -/
theorem pvbCreate_viewports_isSome (acc : GlutinWindowContext × List ViewportId)
    (out : ViewportOutput) (k : Nat)
    (h : (lookupA acc.1.viewports k).isSome = true) :
    (lookupA (pvbCreate acc out).1.viewports k).isSome = true := by
  simp only [pvbCreate]
  exact lookupA_isSome_insertA _ _ _ _ h

/-- Neither glow pass touches the window-id reverse index. -/
theorem pvbStep_maps (changes : Builder → Builder → Bool × Builder)
    (acc : GlutinWindowContext × List ViewportId × List ViewportOutput)
    (out : ViewportOutput) :
    (pvbStep changes acc out).1.viewports_maps = acc.1.viewports_maps := by
  simp only [pvbStep]
  split
  · rfl
  · rfl

theorem pvbCreate_maps (acc : GlutinWindowContext × List ViewportId)
    (out : ViewportOutput) :
    (pvbCreate acc out).1.viewports_maps = acc.1.viewports_maps := rfl

/-- Every active id after both glow passes is MAIN or a declared id. -/
theorem pvbPass2_active_spec (changes : Builder → Builder → Bool × Builder)
    (ctx : GlutinWindowContext) (outs : List ViewportOutput) (x : ViewportId)
    (hx : x ∈ (pvbPass2 changes ctx outs).2) :
    x = mainViewport ∨ ∃ o ∈ outs, o.pair.this = x := by
  rw [pvbPass2] at hx
  rcases foldl_proj_append pvbCreate (fun a => a.2) (fun o => o.pair.this)
      (fun acc o => Or.inr (pvbCreate_active acc o)) (pvbPass1 changes ctx outs).2.2
      ((pvbPass1 changes ctx outs).1, (pvbPass1 changes ctx outs).2.1) x hx with
    h1 | ⟨o, ho, he⟩
  · rw [pvbPass1] at h1
    rcases foldl_proj_append (pvbStep changes) (fun a => a.2.1) (fun o => o.pair.this)
        (fun acc o => pvbStep_active changes acc o) outs (ctx, [mainViewport], []) x h1 with
      h2 | h2
    · exact Or.inl (List.mem_singleton.mp h2)
    · exact Or.inr h2
  · rw [pvbPass1] at ho
    rcases foldl_proj_append (pvbStep changes) (fun a => a.2.2) (fun o => o)
        (fun acc o => pvbStep_pending changes acc o) outs (ctx, [mainViewport], []) o ho with
      h3 | ⟨o2, ho2, he2⟩
    · exact absurd h3 (List.not_mem_nil o)
    · exact Or.inr ⟨o2, ho2, by rw [he2, he]⟩

/-- MAIN is always on the active list. -/
theorem pvbPass2_main_mem (changes : Builder → Builder → Bool × Builder)
    (ctx : GlutinWindowContext) (outs : List ViewportOutput) :
    mainViewport ∈ (pvbPass2 changes ctx outs).2 := by
  rw [pvbPass2]
  have h1 : mainViewport ∈ (pvbPass1 changes ctx outs).2.1 := by
    rw [pvbPass1]
    refine foldl_pred_preserved (pvbStep changes) (fun a => mainViewport ∈ a.2.1)
      ?_ outs (ctx, [mainViewport], []) (List.mem_singleton_self _)
    intro acc o h
    rcases pvbStep_active changes acc o with he | he
    · rw [he]; exact h
    · rw [he]; exact List.mem_append_left _ h
  refine foldl_pred_preserved pvbCreate (fun a => mainViewport ∈ a.2) ?_ _ _ h1
  intro acc o h
  rw [pvbCreate_active]
  exact List.mem_append_left _ h

/-- The glow passes never remove a viewport record (pruning does). -/
theorem pvbPass2_viewports_isSome (changes : Builder → Builder → Bool × Builder)
    (ctx : GlutinWindowContext) (outs : List ViewportOutput) (k : Nat)
    (h : (lookupA ctx.viewports k).isSome = true) :
    (lookupA (pvbPass2 changes ctx outs).1.viewports k).isSome = true := by
  rw [pvbPass2]
  have h1 : (lookupA (pvbPass1 changes ctx outs).1.viewports k).isSome = true := by
    rw [pvbPass1]
    exact foldl_pred_preserved (pvbStep changes)
      (fun a => (lookupA a.1.viewports k).isSome = true)
      (fun acc o hp => pvbStep_viewports_isSome changes acc o k hp) outs
      (ctx, [mainViewport], []) h
  exact foldl_pred_preserved pvbCreate (fun a => (lookupA a.1.viewports k).isSome = true)
    (fun acc o hp => pvbCreate_viewports_isSome acc o k hp) _ _ h1

/-- The glow passes leave the reverse index untouched. -/
theorem pvbPass2_maps (changes : Builder → Builder → Bool × Builder)
    (ctx : GlutinWindowContext) (outs : List ViewportOutput) :
    (pvbPass2 changes ctx outs).1.viewports_maps = ctx.viewports_maps := by
  rw [pvbPass2]
  have h1 : (pvbPass1 changes ctx outs).1.viewports_maps = ctx.viewports_maps := by
    rw [pvbPass1]
    exact foldl_pred_preserved (pvbStep changes)
      (fun a => a.1.viewports_maps = ctx.viewports_maps)
      (fun acc o hp => (pvbStep_maps changes acc o).trans hp) outs
      (ctx, [mainViewport], []) rfl
  exact foldl_pred_preserved pvbCreate (fun a => a.1.viewports_maps = ctx.viewports_maps)
    (fun acc o hp => (pvbCreate_maps acc o).trans hp) _ _ h1

/-- C4, glow half: reconciliation retains MAIN and prunes every
undeclared non-MAIN id from all three tables. -/
theorem c4_glow_part (changes : Builder → Builder → Bool × Builder)
    (ctx : GlutinWindowContext) (outs : List ViewportOutput) :
    ((lookupA ctx.viewports mainViewport).isSome = true →
      (lookupA (process_viewport_builders changes ctx outs).viewports
        mainViewport).isSome = true) ∧
    (∀ id, id ≠ mainViewport → (∀ o ∈ outs, o.pair.this ≠ id) →
      lookupA (process_viewport_builders changes ctx outs).viewports id = none ∧
      lookupA (process_viewport_builders changes ctx outs).builders id = none ∧
      ∀ wid, lookupA (process_viewport_builders changes ctx outs).viewports_maps wid ≠
        some id) := by
  have hv : (process_viewport_builders changes ctx outs).viewports =
      (pvbPass2 changes ctx outs).1.viewports.filter
        (fun kv => (pvbPass2 changes ctx outs).2.contains kv.1) := rfl
  have hb : (process_viewport_builders changes ctx outs).builders =
      (pvbPass2 changes ctx outs).1.builders.filter
        (fun kv => (pvbPass2 changes ctx outs).2.contains kv.1) := rfl
  have hm : (process_viewport_builders changes ctx outs).viewports_maps =
      (pvbPass2 changes ctx outs).1.viewports_maps.filter
        (fun kv => (pvbPass2 changes ctx outs).2.contains kv.2) := rfl
  constructor
  · intro h
    have hcontains : (pvbPass2 changes ctx outs).2.contains mainViewport = true :=
      (contains_iff_mem _ _).mpr (pvbPass2_main_mem changes ctx outs)
    rw [hv, lookupA_filter_key_pos _ _ _ hcontains]
    exact pvbPass2_viewports_isSome changes ctx outs mainViewport h
  · intro id hidm hido
    have hnotin : id ∉ (pvbPass2 changes ctx outs).2 := by
      intro hin
      rcases pvbPass2_active_spec changes ctx outs id hin with h | ⟨o, ho, he⟩
      · exact hidm h
      · exact hido o ho he
    have hcontains : (pvbPass2 changes ctx outs).2.contains id = false := by
      cases hc : (pvbPass2 changes ctx outs).2.contains id
      · rfl
      · exact absurd ((contains_iff_mem _ _).mp hc) hnotin
    refine ⟨?_, ?_, ?_⟩
    · rw [hv]
      exact lookupA_filter_key_neg _ _ _ hcontains
    · rw [hb]
      exact lookupA_filter_key_neg _ _ _ hcontains
    · intro wid hcontra
      rw [hm] at hcontra
      have hval := lookupA_filter_val _ _ _ _ hcontra
      rw [hcontains] at hval
      exact Bool.false_ne_true hval

/-- Wgpu analogues of the glow step lemmas. -/
theorem wgpuRetainStep_active (acc : WgpuRunning × List ViewportId × List ViewportOutput)
    (out : ViewportOutput) :
    (wgpuRetainStep acc out).2.1 = acc.2.1 ∨
    (wgpuRetainStep acc out).2.1 = acc.2.1 ++ [out.pair.this] := by
  simp only [wgpuRetainStep]
  split
  · exact Or.inr rfl
  · exact Or.inl rfl

theorem wgpuRetainStep_pending (acc : WgpuRunning × List ViewportId × List ViewportOutput)
    (out : ViewportOutput) :
    (wgpuRetainStep acc out).2.2 = acc.2.2 ∨
    (wgpuRetainStep acc out).2.2 = acc.2.2 ++ [out] := by
  simp only [wgpuRetainStep]
  split
  · exact Or.inl rfl
  · exact Or.inr rfl

theorem wgpuCreateStep_active (acc : WgpuRunning × List ViewportId)
    (out : ViewportOutput) :
    (wgpuCreateStep acc out).2 = acc.2 ++ [out.pair.this] := rfl

theorem wgpuRetainStep_viewports_isSome
    (acc : WgpuRunning × List ViewportId × List ViewportOutput)
    (out : ViewportOutput) (k : Nat)
    (h : (lookupA acc.1.viewports k).isSome = true) :
    (lookupA (wgpuRetainStep acc out).1.viewports k).isSome = true := by
  simp only [wgpuRetainStep]
  split
  · exact lookupA_isSome_insertA _ _ _ _ h
  · exact h

theorem wgpuCreateStep_viewports_isSome (acc : WgpuRunning × List ViewportId)
    (out : ViewportOutput) (k : Nat)
    (h : (lookupA acc.1.viewports k).isSome = true) :
    (lookupA (wgpuCreateStep acc out).1.viewports k).isSome = true := by
  simp only [wgpuCreateStep]
  exact lookupA_isSome_insertA _ _ _ _ h

theorem wgpuRetainStep_windows_id
    (acc : WgpuRunning × List ViewportId × List ViewportOutput)
    (out : ViewportOutput) :
    (wgpuRetainStep acc out).1.windows_id = acc.1.windows_id := by
  simp only [wgpuRetainStep]
  split
  · rfl
  · rfl

theorem wgpuCreateStep_windows_id (acc : WgpuRunning × List ViewportId)
    (out : ViewportOutput) :
    (wgpuCreateStep acc out).1.windows_id = acc.1.windows_id := rfl

theorem wgpuPass2_active_spec (r : WgpuRunning) (outs : List ViewportOutput)
    (x : ViewportId) (hx : x ∈ (wgpuPass2 r outs).2) :
    x = mainViewport ∨ ∃ o ∈ outs, o.pair.this = x := by
  rw [wgpuPass2] at hx
  rcases foldl_proj_append wgpuCreateStep (fun a => a.2) (fun o => o.pair.this)
      (fun acc o => Or.inr (wgpuCreateStep_active acc o)) (wgpuPass1 r outs).2.2
      ((wgpuPass1 r outs).1, (wgpuPass1 r outs).2.1) x hx with
    h1 | ⟨o, ho, he⟩
  · rw [wgpuPass1] at h1
    rcases foldl_proj_append wgpuRetainStep (fun a => a.2.1) (fun o => o.pair.this)
        (fun acc o => wgpuRetainStep_active acc o) outs (r, [mainViewport], []) x h1 with
      h2 | h2
    · exact Or.inl (List.mem_singleton.mp h2)
    · exact Or.inr h2
  · rw [wgpuPass1] at ho
    rcases foldl_proj_append wgpuRetainStep (fun a => a.2.2) (fun o => o)
        (fun acc o => wgpuRetainStep_pending acc o) outs (r, [mainViewport], []) o ho with
      h3 | ⟨o2, ho2, he2⟩
    · exact absurd h3 (List.not_mem_nil o)
    · exact Or.inr ⟨o2, ho2, by rw [he2, he]⟩

theorem wgpuPass2_main_mem (r : WgpuRunning) (outs : List ViewportOutput) :
    mainViewport ∈ (wgpuPass2 r outs).2 := by
  rw [wgpuPass2]
  have h1 : mainViewport ∈ (wgpuPass1 r outs).2.1 := by
    rw [wgpuPass1]
    refine foldl_pred_preserved wgpuRetainStep (fun a => mainViewport ∈ a.2.1)
      ?_ outs (r, [mainViewport], []) (List.mem_singleton_self _)
    intro acc o h
    rcases wgpuRetainStep_active acc o with he | he
    · rw [he]; exact h
    · rw [he]; exact List.mem_append_left _ h
  refine foldl_pred_preserved wgpuCreateStep (fun a => mainViewport ∈ a.2) ?_ _ _ h1
  intro acc o h
  rw [wgpuCreateStep_active]
  exact List.mem_append_left _ h

theorem wgpuPass2_viewports_isSome (r : WgpuRunning) (outs : List ViewportOutput) (k : Nat)
    (h : (lookupA r.viewports k).isSome = true) :
    (lookupA (wgpuPass2 r outs).1.viewports k).isSome = true := by
  rw [wgpuPass2]
  have h1 : (lookupA (wgpuPass1 r outs).1.viewports k).isSome = true := by
    rw [wgpuPass1]
    exact foldl_pred_preserved wgpuRetainStep
      (fun a => (lookupA a.1.viewports k).isSome = true)
      (fun acc o hp => wgpuRetainStep_viewports_isSome acc o k hp) outs
      (r, [mainViewport], []) h
  exact foldl_pred_preserved wgpuCreateStep (fun a => (lookupA a.1.viewports k).isSome = true)
    (fun acc o hp => wgpuCreateStep_viewports_isSome acc o k hp) _ _ h1

/-- C4, wgpu half: reconciliation retains MAIN and prunes every
undeclared non-MAIN id from the viewport table and the reverse index
(the builder table is not pruned in this backend). -/
theorem c4_wgpu_part (r : WgpuRunning) (outs : List ViewportOutput) :
    ((lookupA r.viewports mainViewport).isSome = true →
      (lookupA (wgpuReconcile r outs).1.viewports mainViewport).isSome = true) ∧
    (∀ id, id ≠ mainViewport → (∀ o ∈ outs, o.pair.this ≠ id) →
      lookupA (wgpuReconcile r outs).1.viewports id = none ∧
      ∀ wid, lookupA (wgpuReconcile r outs).1.windows_id wid ≠ some id) := by
  have hv : (wgpuReconcile r outs).1.viewports =
      (wgpuPass2 r outs).1.viewports.filter
        (fun kv => (wgpuPass2 r outs).2.contains kv.1) := rfl
  have hm : (wgpuReconcile r outs).1.windows_id =
      (wgpuPass2 r outs).1.windows_id.filter
        (fun kv => (wgpuPass2 r outs).2.contains kv.2) := rfl
  constructor
  · intro h
    have hcontains : (wgpuPass2 r outs).2.contains mainViewport = true :=
      (contains_iff_mem _ _).mpr (wgpuPass2_main_mem r outs)
    rw [hv, lookupA_filter_key_pos _ _ _ hcontains]
    exact wgpuPass2_viewports_isSome r outs mainViewport h
  · intro id hidm hido
    have hnotin : id ∉ (wgpuPass2 r outs).2 := by
      intro hin
      rcases wgpuPass2_active_spec r outs id hin with h | ⟨o, ho, he⟩
      · exact hidm h
      · exact hido o ho he
    have hcontains : (wgpuPass2 r outs).2.contains id = false := by
      cases hc : (wgpuPass2 r outs).2.contains id
      · rfl
      · exact absurd ((contains_iff_mem _ _).mp hc) hnotin
    refine ⟨?_, ?_⟩
    · rw [hv]
      exact lookupA_filter_key_neg _ _ _ hcontains
    · intro wid hcontra
      rw [hm] at hcontra
      have hval := lookupA_filter_val _ _ _ _ hcontra
      rw [hcontains] at hval
      exact Bool.false_ne_true hval

/-- C4 counterexample: reconciling `c4Stale` against an empty declared
list (which does not contain viewport 7) removes viewport 7's record from
the viewport table and the window-id reverse index, but its entry in the
builder table SURVIVES — `WgpuWinitApp::run_ui_and_paint` never prunes
`builders`, so the claim's "removed from ... the builder table" is false
for the wgpu backend. -/
theorem c4_wgpu_builders_counterexample :
    lookupA (wgpuReconcile c4Stale []).1.viewports 7 = none ∧
    lookupA (wgpuReconcile c4Stale []).1.windows_id 200 = none ∧
    ¬ (lookupA (wgpuReconcile c4Stale []).1.builders 7 = none) := by
  refine ⟨?_, ?_, ?_⟩
  · decide
  · decide
  · decide

/-- C4 (amended): reconciliation never removes the MAIN viewport's record
(whenever MAIN has a record before, it still has one after, for every
declared list — including one not containing MAIN), and every other record
whose id is absent from the declared list is removed from the viewport
table and the window-id reverse index in both backends, and from the
builder table in the glow backend; the wgpu backend does not prune its
builder table. -/
theorem c4_reconciliation_keeps_main :
    (∀ (changes : Builder → Builder → Bool × Builder) (ctx : GlutinWindowContext)
       (outs : List ViewportOutput),
       ((lookupA ctx.viewports mainViewport).isSome = true →
         (lookupA (process_viewport_builders changes ctx outs).viewports
           mainViewport).isSome = true) ∧
       (∀ id, id ≠ mainViewport → (∀ o ∈ outs, o.pair.this ≠ id) →
         lookupA (process_viewport_builders changes ctx outs).viewports id = none ∧
         lookupA (process_viewport_builders changes ctx outs).builders id = none ∧
         ∀ wid, lookupA (process_viewport_builders changes ctx outs).viewports_maps wid ≠
           some id)) ∧
    (∀ (r : WgpuRunning) (outs : List ViewportOutput),
       ((lookupA r.viewports mainViewport).isSome = true →
         (lookupA (wgpuReconcile r outs).1.viewports mainViewport).isSome = true) ∧
       (∀ id, id ≠ mainViewport → (∀ o ∈ outs, o.pair.this ≠ id) →
         lookupA (wgpuReconcile r outs).1.viewports id = none ∧
         ∀ wid, lookupA (wgpuReconcile r outs).1.windows_id wid ≠ some id)) :=
  ⟨fun changes ctx outs => c4_glow_part changes ctx outs,
   fun r outs => c4_wgpu_part r outs⟩

/-- Witness for C4 (amended) on the concrete registries. -/
theorem c4_reconciliation_keeps_main_witness :
    (lookupA (process_viewport_builders (fun b _ => (false, b)) c4GlowCtx []).viewports
      0).isSome = true ∧
    lookupA (process_viewport_builders (fun b _ => (false, b)) c4GlowCtx []).viewports 3 =
      none ∧
    lookupA (process_viewport_builders (fun b _ => (false, b)) c4GlowCtx []).builders 3 =
      none ∧
    lookupA (wgpuReconcile c4Stale []).1.viewports 7 = none :=
  ⟨(c4_reconciliation_keeps_main.1 (fun b _ => (false, b)) c4GlowCtx []).1 (by decide),
   ((c4_reconciliation_keeps_main.1 (fun b _ => (false, b)) c4GlowCtx []).2 3 (by decide)
     (by simp)).1,
   ((c4_reconciliation_keeps_main.1 (fun b _ => (false, b)) c4GlowCtx []).2 3 (by decide)
     (by simp)).2.1,
   ((c4_reconciliation_keeps_main.2 c4Stale []).2 7 (by decide) (by simp)).1⟩
